import Mathlib

/-!
# Lost and Found System: the messaging synchronisation core

A shallow embedding of `src/frontend/src/components/ChatWindow.jsx` (the
thread state, `fetchMessages`, the polling effect and `handleSend`) as it is
mounted by `src/frontend/src/pages/MessagingPage.jsx`, of the conversation
directory of `ConversationList.jsx`, of the two handlers of `ItemDetail.jsx` that
post a message, of `AuthProvider`, of `handleRegister` and of `applyFilters`,
followed by theorems about them.

React state is modelled by explicit state passing.  A call that awaits the
network is split at the `await`: the part before it issues a call that is kept
in a list of unresolved calls, the part after it is a continuation applied when
the call settles.  The browser's interval timers are a table of active handles.
-/

namespace LostAndFound

/-! ## Data model -/

/-- A message record as it is held in the `messages` state of `ChatWindow`. -/
structure Message where
  message_id : String
  sender_id : String
  content : String
  created_at : String
  status : String
deriving DecidableEq, Repr

/-- The current user as supplied by `useAuth()`. -/
structure User where
  user_id : String
deriving DecidableEq, Repr

/-- The `conversation` prop; `participant_ids` may be absent. -/
structure Conversation where
  participant_ids : Option (List String)
deriving DecidableEq, Repr

/-- The body of `POST /messages/send` built by `handleSend`. -/
structure Payload where
  receiver_id : String
  content : String
deriving DecidableEq, Repr

/-- The four `useState` cells of `ChatWindow` (lines 9-12). -/
structure ChatState where
  messages : List Message
  newMessage : String
  loading : Bool
  error : Option String
deriving DecidableEq, Repr

/-- Initial values of the `useState` cells. -/
def ChatState.initial : ChatState :=
  { messages := [], newMessage := "", loading := true, error := none }

/-! ## JavaScript helpers -/

/-- White space and line terminators removed by `String.prototype.trim`. -/
def isJsWhitespace (c : Char) : Bool :=
  let n := c.toNat
  n == 0x09 || n == 0x0A || n == 0x0B || n == 0x0C || n == 0x0D || n == 0x20 ||
  n == 0xA0 || n == 0x1680 || (0x2000 ≤ n && n ≤ 0x200A) || n == 0x2028 ||
  n == 0x2029 || n == 0x202F || n == 0x205F || n == 0x3000 || n == 0xFEFF

/-- The method `String.prototype.trim`. -/
def jsTrim (s : String) : String :=
  String.mk ((s.data.dropWhile isJsWhitespace).reverse.dropWhile isJsWhitespace).reverse

/-- Truthiness of the `conversationId` prop: `null` and the empty string are falsy. -/
def truthyId : Option String → Bool
  | none => false
  | some s => s != ""

/-! ## `fetchMessages`: the continuations after the `await` (lines 24-32) -/

/-- The `try` branch after the GET resolved: `setMessages(response.data.messages || [])`,
`setError(null)`, and `setLoading(false)` from `finally`.  The argument is
`response.data.messages`, `none` when the field is absent. -/
def fetchMessages.onSuccess (data : Option (List Message)) (s : ChatState) : ChatState :=
  { s with messages := data.getD [], error := none, loading := false }

/-- The `catch` branch after the GET rejected, and `setLoading(false)` from `finally`. -/
def fetchMessages.onFailure (s : ChatState) : ChatState :=
  { s with error := some "Failed to load messages.", loading := false }

/-! ## `handleSend` (lines 60-94) -/

/-- The guard of line 62 negated: the submit is accepted. -/
def handleSend.accepted (conversationId : Option String) (user : Option User)
    (s : ChatState) : Bool :=
  jsTrim s.newMessage != "" && truthyId conversationId && user.isSome

/-- Lines 64-65: the first participant different from the user, or the empty string. -/
def handleSend.receiverId (conversation : Option Conversation) (user : User) : String :=
  let participants := (conversation.bind (·.participant_ids)).getD []
  (participants.find? (fun id => id != user.user_id)).getD ""

/-- Lines 67-70. -/
def handleSend.payload (conversation : Option Conversation) (user : User)
    (s : ChatState) : Payload :=
  { receiver_id := handleSend.receiverId conversation user, content := jsTrim s.newMessage }

/-- Lines 72-78: `now` is `Date.now()`, `iso` is `new Date().toISOString()`. -/
def handleSend.tempMessage (now : Nat) (iso : String) (user : User) (s : ChatState) : Message :=
  { message_id := toString now
    sender_id := user.user_id
    content := jsTrim s.newMessage
    created_at := iso
    status := "sent" }

/-- The updater of line 80: the provisional entry is appended. -/
def handleSend.append (tempMessage : Message) (prev : List Message) : List Message :=
  prev ++ [tempMessage]

/-- The updater of lines 85-87: entries with the placeholder id become `response.data`. -/
def handleSend.swap (tempId : String) (data : Message) (prev : List Message) : List Message :=
  prev.map (fun msg => if msg.message_id = tempId then data else msg)

/-- The updater of line 91: entries with the placeholder id are filtered out. -/
def handleSend.remove (tempId : String) (prev : List Message) : List Message :=
  prev.filter (fun msg => msg.message_id != tempId)

/-- Lines 80-81: the state right before the POST is awaited. -/
def handleSend.optimistic (tempMessage : Message) (s : ChatState) : ChatState :=
  { s with messages := handleSend.append tempMessage s.messages, newMessage := "" }

/-- Lines 85-88: the continuation after the POST resolved with `response.data`. -/
def handleSend.onSuccess (tempId : String) (data : Message) (s : ChatState) : ChatState :=
  { s with messages := handleSend.swap tempId data s.messages }

/-- Lines 90-92: the continuation after the POST rejected. -/
def handleSend.onFailure (tempId : String) (s : ChatState) : ChatState :=
  { s with messages := handleSend.remove tempId s.messages,
           error := some "Failed to send message." }

/-! ## The mounted component: props, timers and unresolved calls -/

/-- One `fetchMessages` call that reached the GET: `target` is the `conversationId`
of the closure that made it, `timer` the interval handle that triggered it
(`none` for the initial fetch of the effect, line 40). -/
structure FetchCall where
  target : String
  timer : Option Nat
deriving DecidableEq, Repr

/-- One `handleSend` call that reached the POST. -/
structure SendCall where
  tempId : String
  payload : Payload
deriving DecidableEq, Repr

/-- An active `setInterval` entry: the handle and the values captured by the
`fetchMessages` closure that its callback calls (lines 43-45). -/
structure Interval where
  handle : Nat
  conversationId : Option String
  user : Option User
deriving DecidableEq, Repr

/-- The `ChatWindow` instance rendered by `MessagingPage` together with the
browser state it depends on. -/
structure Component where
  conversationId : Option String
  conversation : Option Conversation
  user : Option User
  view : ChatState
  mounted : Bool
  intervals : List Interval
  nextHandle : Nat
  cleanup : Option Nat
  pendingFetches : List FetchCall
  pendingSends : List SendCall
  fetchLog : List FetchCall
  sendLog : List Payload
deriving DecidableEq, Repr

/-- Lines 20-24: the guard and the GET of `fetchMessages`, called from a closure
that captured `conversationId` and `user`. -/
def fetchMessages (conversationId : Option String) (user : Option User)
    (timer : Option Nat) (c : Component) : Component :=
  match conversationId, user with
  | some cid, some _ =>
    if cid = "" then c
    else
      { c with pendingFetches := c.pendingFetches ++ [⟨cid, timer⟩]
               fetchLog := c.fetchLog ++ [⟨cid, timer⟩] }
  | _, _ => c

/-- The call `clearInterval(pollInterval)` of the cleanup returned by the last
run of the polling effect (lines 48-50); nothing when that run returned early. -/
def runCleanup (c : Component) : Component :=
  match c.cleanup with
  | none => c
  | some h => { c with intervals := c.intervals.filter (fun iv => iv.handle != h), cleanup := none }

/-- The polling effect (lines 36-51), run with the props of the current render. -/
def pollingEffect (c : Component) : Component :=
  if !truthyId c.conversationId || c.user.isNone then { c with cleanup := none }
  else
    let c1 := { c with view := { c.view with loading := true } }
    let c2 := fetchMessages c.conversationId c.user none c1
    let h := c2.nextHandle
    { c2 with intervals := c2.intervals ++ [⟨h, c.conversationId, c.user⟩]
              nextHandle := h + 1
              cleanup := some h }

/-- What can happen to a mounted `ChatWindow`. -/
inductive Event where
  /-- `MessagingPage` or the auth context re-renders the component with these values. -/
  | render (conversationId : Option String) (conversation : Option Conversation)
      (user : Option User)
  /-- The component is removed from the page. -/
  | unmount
  /-- The browser fires the interval with this handle. -/
  | tick (handle : Nat)
  /-- The unresolved GET at index `k` settles: `some data` carries
  `response.data.messages`, `none` is a rejection. -/
  | fetchSettle (k : Nat) (result : Option (Option (List Message)))
  /-- The user edits the input (line 181). -/
  | input (text : String)
  /-- The form is submitted at time `now`, rendered `iso` by `toISOString`. -/
  | submit (now : Nat) (iso : String)
  /-- The unresolved POST at index `k` settles: `some data` carries `response.data`,
  `none` is a rejection. -/
  | sendSettle (k : Nat) (result : Option Message)
deriving DecidableEq, Repr

/-- The first render and effect run of a `ChatWindow` with the given props. -/
def mount (conversationId : Option String) (conversation : Option Conversation)
    (user : Option User) : Component :=
  pollingEffect
    { conversationId := conversationId, conversation := conversation, user := user
      view := ChatState.initial, mounted := true, intervals := [], nextHandle := 0
      cleanup := none, pendingFetches := [], pendingSends := [], fetchLog := [], sendLog := [] }

/-- The body of `handleSend` up to the `await` (lines 60-84). -/
def handleSend (now : Nat) (iso : String) (c : Component) : Component :=
  match c.user with
  | none => c
  | some u =>
    if handleSend.accepted c.conversationId c.user c.view then
      let payload := handleSend.payload c.conversation u c.view
      let tempMessage := handleSend.tempMessage now iso u c.view
      { c with view := handleSend.optimistic tempMessage c.view
               pendingSends := c.pendingSends ++ [⟨tempMessage.message_id, payload⟩]
               sendLog := c.sendLog ++ [payload] }
    else c

/-- One step of the component. State updates of an unmounted component are dropped. -/
def step (c : Component) : Event → Component
  | .render cid conv user =>
    if !c.mounted then c
    else
      let c1 := { c with conversationId := cid, conversation := conv, user := user }
      if cid ≠ c.conversationId ∨ user ≠ c.user then pollingEffect (runCleanup c1) else c1
  | .unmount =>
    if !c.mounted then c else { runCleanup c with mounted := false }
  | .tick h =>
    match c.intervals.find? (fun iv => iv.handle == h) with
    | some iv => fetchMessages iv.conversationId iv.user (some h) c
    | none => c
  | .fetchSettle k result =>
    match c.pendingFetches[k]? with
    | none => c
    | some _ =>
      let c1 := { c with pendingFetches := c.pendingFetches.eraseIdx k }
      if !c.mounted then c1
      else
        match result with
        | some data => { c1 with view := fetchMessages.onSuccess data c1.view }
        | none => { c1 with view := fetchMessages.onFailure c1.view }
  | .input text =>
    if !c.mounted then c else { c with view := { c.view with newMessage := text } }
  | .submit now iso =>
    if !c.mounted then c else handleSend now iso c
  | .sendSettle k result =>
    match c.pendingSends[k]? with
    | none => c
    | some call =>
      let c1 := { c with pendingSends := c.pendingSends.eraseIdx k }
      if !c.mounted then c1
      else
        match result with
        | some data => { c1 with view := handleSend.onSuccess call.tempId data c1.view }
        | none => { c1 with view := handleSend.onFailure call.tempId c1.view }

/-- A run of events, oldest first. -/
def run (c : Component) (es : List Event) : Component :=
  es.foldl step c

/-- Poll traffic: an interval tick or a settled GET. -/
def Event.isPoll : Event → Bool
  | .tick _ => true
  | .fetchSettle _ _ => true
  | _ => false

/-- Poll traffic that applies no page: an interval tick or a rejected GET. -/
def Event.isQuiet : Event → Bool
  | .tick _ => true
  | .fetchSettle _ none => true
  | _ => false

/-- The event makes React run the cleanup of the polling effect: the view is
unmounted, or a render changes one of the dependencies `[conversationId, user]`. -/
def Event.triggersCleanup (c : Component) : Event → Bool
  | .unmount => c.mounted
  | .render cid _ user => c.mounted && (cid != c.conversationId || user != c.user)
  | _ => false

/-- What every reachable component satisfies: active intervals and the handle held
by the cleanup were issued earlier, and an interval callback holds a closure whose
`conversationId` and `user` passed the guard of the effect. -/
def Component.WF (c : Component) : Prop :=
  (∀ iv ∈ c.intervals, iv.handle < c.nextHandle ∧ truthyId iv.conversationId = true ∧
      iv.user.isSome = true) ∧
  (∀ h, c.cleanup = some h → h < c.nextHandle)

/-- The interval `h` has been cleared: it is not active and its handle is used up. -/
def Component.Cancelled (h : Nat) (c : Component) : Prop :=
  (∀ iv ∈ c.intervals, iv.handle ≠ h) ∧ h < c.nextHandle

/-! ## The counterparty lookups -/

/-- The UTF-16 code units of a string, which is what a JavaScript string is made of:
`substring` cuts between them and a regular expression built without the `u`
flag matches on them.  A character above U+FFFF gives a high and a low surrogate. -/
def toUtf16 (s : String) : List Nat :=
  s.data.flatMap (fun c =>
    if c.toNat < 0x10000 then [c.toNat]
    else [0xD800 + (c.toNat - 0x10000) / 0x400, 0xDC00 + (c.toNat - 0x10000) % 0x400])

/-- The call `substring(0, n)` on the code units of a string: the first `n` units.  A
surrogate pair across the end is cut and its high surrogate kept. -/
def jsSubstring0 (n : Nat) (units : List Nat) : List Nat :=
  units.take n

/-- Line 113 of `ChatWindow.jsx`: `conversation?.participant_ids?.find(id => id !== user.user_id)`. -/
def ChatWindow.otherParticipant (conversation : Option Conversation) (user : User) :
    Option String :=
  (conversation.bind (·.participant_ids)).bind
    (fun ids => ids.find? (fun id => id != user.user_id))

/-- Line 114 of `ChatWindow.jsx`: the name shown in the chat header, as code units. -/
def ChatWindow.participantName (conversation : Option Conversation) (user : User) :
    List Nat :=
  match ChatWindow.otherParticipant conversation user with
  | some id =>
    if id != "" then toUtf16 "User " ++ jsSubstring0 15 (toUtf16 id) else toUtf16 "User"
  | none => toUtf16 "User"

/-- Line 98 of `ConversationList.jsx`:
`conv.participant_ids?.find(id => id !== user?.user_id)`; with no user the
comparison is against `undefined`, which differs from every id. -/
def ConversationList.otherParticipantId (conv : Conversation) (user : Option User) :
    Option String :=
  conv.participant_ids.bind
    (fun ids => ids.find? (fun id => some id != user.map (·.user_id)))

/-- Lines 99-101 of `ConversationList.jsx`: the name shown in the list, as code units. -/
def ConversationList.participantName (conv : Conversation) (user : Option User) : List Nat :=
  match ConversationList.otherParticipantId conv user with
  | some id =>
    if id != "" then toUtf16 "User " ++ jsSubstring0 8 (toUtf16 id) else toUtf16 "Unknown"
  | none => toUtf16 "Unknown"

/-- Lines 46-50 of `ConversationList.jsx`; the returned string as code units. -/
def getOtherParticipant (user : Option User) (participantIds : Option (List String)) :
    List Nat :=
  match user, participantIds with
  | some u, some ids =>
    match ids.find? (fun id => id != u.user_id) with
    | some otherId =>
      if otherId != "" then toUtf16 "User " ++ jsSubstring0 8 (toUtf16 otherId)
      else toUtf16 "Unknown"
    | none => toUtf16 "Unknown"
  | _, _ => toUtf16 "Unknown"

/-! ## `ItemDetail.handleContactSeller` (lines 42-80 of `ItemDetail.jsx`) -/

/-- The fields of the `item` state that `handleContactSeller` reads. -/
structure Item where
  item_id : String
  user_id : String
  type : String
  desc : String
deriving DecidableEq, Repr

/-- The body of the POST built at lines 63-67. -/
structure ContactPayload where
  receiver_id : String
  content : String
  item_id : String
deriving DecidableEq, Repr

/-- How `handleContactSeller` proceeds up to the `await`. -/
inductive ContactResult where
  /-- Lines 44-48: no user, the login page is opened. -/
  | loginRequired
  /-- Lines 50-53: the item is not loaded. -/
  | itemNotLoaded
  /-- Lines 55-58: the item is the user's own post. -/
  | ownPost
  /-- Line 71: the POST is made with this body. -/
  | posted (payload : ContactPayload)
deriving DecidableEq, Repr

/-- The guards of `handleContactSeller` and the payload it posts. -/
def handleContactSeller (user : Option User) (item : Option Item) : ContactResult :=
  match user with
  | none => .loginRequired
  | some u =>
    match item with
    | none => .itemNotLoaded
    | some it =>
      if it.user_id = u.user_id then .ownPost
      else
        .posted
          { receiver_id := it.user_id
            content := "Hi! I'm interested in your " ++ it.type ++ ": \"" ++ it.desc ++
              "\". Is it still available?"
            item_id := it.item_id }

/-! ## `ItemDetail.handleClaimSubmit` (lines 82-122 of `ItemDetail.jsx`) -/

/-- How `handleClaimSubmit` proceeds up to the `await`. -/
inductive ClaimResult where
  /-- Lines 85-89: no user, the login page is opened. -/
  | loginRequired
  /-- Lines 91-94: the details are empty after trimming. -/
  | detailsRequired
  /-- Lines 96-99: the item is not loaded. -/
  | itemNotLoaded
  /-- Line 110: the POST to `/messages/send` is made with this body. -/
  | posted (payload : ContactPayload)
deriving DecidableEq, Repr

/-- The guards of `handleClaimSubmit` and the payload it posts; `claimDetails` is the
text of the claim form. -/
def handleClaimSubmit (user : Option User) (claimDetails : String) (item : Option Item) :
    ClaimResult :=
  match user with
  | none => .loginRequired
  | some _ =>
    if jsTrim claimDetails = "" then .detailsRequired
    else
      match item with
      | none => .itemNotLoaded
      | some it =>
        .posted
          { receiver_id := it.user_id
            content := "I'd like to claim this " ++ it.type ++ " \"" ++ it.desc ++
              "\". Details: " ++ claimDetails
            item_id := it.item_id }

/-! ## Order of the thread by `created_at` -/

/-- Comparison `a <= b` of two strings by their characters.  Timestamps in the format
of `toISOString` compare chronologically this way. -/
def lexLe : List Char → List Char → Bool
  | [], _ => true
  | _ :: _, [] => false
  | a :: as, b :: bs => a.toNat < b.toNat || (a.toNat == b.toNat && lexLe as bs)

/-- The entry `a` is not later than `b` by `created_at`. -/
def createdAtLe (a b : Message) : Bool :=
  lexLe a.created_at.data b.created_at.data

/-- The thread is in non-decreasing order of `created_at`. -/
def sortedByCreatedAt (thread : List Message) : Prop :=
  thread.Pairwise (fun a b => createdAtLe a b = true)

instance (thread : List Message) : Decidable (sortedByCreatedAt thread) :=
  inferInstanceAs (Decidable (thread.Pairwise (fun a b => createdAtLe a b = true)))

/-- The value read back from a decimal rendering, digit by digit. -/
def valFrom (a : Nat) (cs : List Char) : Nat :=
  cs.foldl (fun acc c => 10 * acc + (c.toNat - 48)) a

/-! ## `ConversationList`: the conversation directory (`ConversationList.jsx`) -/

/-- A conversation as returned by `GET /messages/conversations`. -/
structure ConversationEntry where
  conversation_id : String
  participant_ids : Option (List String)
  last_message_content : Option String
  last_message_at : Option String
  unread_count : Nat
deriving DecidableEq, Repr

/-- The three `useState` cells of `ConversationList` (lines 9-11). -/
structure ConversationList.State where
  conversations : List ConversationEntry
  loading : Bool
  error : Option String
deriving DecidableEq, Repr

/-- Initial values of the `useState` cells. -/
def ConversationList.State.initial : ConversationList.State :=
  { conversations := [], loading := true, error := none }

/-- Lines 18 and 23: the continuation after `getConversations` resolved; the argument
is `response.data.conversations`, `none` when the field is absent. -/
def fetchConversations.onSuccess (data : Option (List ConversationEntry))
    (s : ConversationList.State) : ConversationList.State :=
  { s with conversations := data.getD [], loading := false }

/-- Lines 19-23: the continuation after `getConversations` rejected. -/
def fetchConversations.onFailure (s : ConversationList.State) : ConversationList.State :=
  { s with error := some "Failed to load conversations", loading := false }

/-- The mounted `ConversationList` with its props, the number of `getConversations`
calls made so far and the number of them still unresolved. -/
structure ConversationList.Component where
  selectedConversationId : Option String
  user : Option User
  view : ConversationList.State
  mounted : Bool
  fetchCalls : Nat
  pendingFetches : Nat
deriving DecidableEq, Repr

/-- Lines 14-17: `fetchConversations` up to the `await`. -/
def fetchConversations (c : ConversationList.Component) : ConversationList.Component :=
  { c with view := { c.view with loading := true }
           fetchCalls := c.fetchCalls + 1
           pendingFetches := c.pendingFetches + 1 }

/-- The first render of `ConversationList` and the run of its effect (lines 13-28). -/
def ConversationList.mount (selectedConversationId : Option String) (user : Option User) :
    ConversationList.Component :=
  fetchConversations
    { selectedConversationId := selectedConversationId, user := user
      view := ConversationList.State.initial, mounted := true
      fetchCalls := 0, pendingFetches := 0 }

/-- What can happen to a mounted `ConversationList`. -/
inductive ConversationList.Event where
  /-- A re-render with these props and context; the effect has the dependency list
  `[]` and does not run again. -/
  | render (selectedConversationId : Option String) (user : Option User)
  /-- The component is removed from the page; the effect returns no cleanup. -/
  | unmount
  /-- The browser is asked to fire the interval with this handle; the component
  registers no interval. -/
  | tick (handle : Nat)
  /-- An unresolved `getConversations` call settles: `some data` carries
  `response.data.conversations`, `none` is a rejection. -/
  | fetchSettle (result : Option (Option (List ConversationEntry)))
deriving DecidableEq, Repr

/-- One step of `ConversationList`. State updates of an unmounted component are dropped. -/
def ConversationList.step (c : ConversationList.Component) :
    ConversationList.Event → ConversationList.Component
  | .render sel user =>
    if !c.mounted then c else { c with selectedConversationId := sel, user := user }
  | .unmount => { c with mounted := false }
  | .tick _ => c
  | .fetchSettle result =>
    if c.pendingFetches = 0 then c
    else
      let c1 := { c with pendingFetches := c.pendingFetches - 1 }
      if !c.mounted then c1
      else
        match result with
        | some data => { c1 with view := fetchConversations.onSuccess data c1.view }
        | none => { c1 with view := fetchConversations.onFailure c1.view }

/-- A run of events of `ConversationList`, oldest first. -/
def ConversationList.run (c : ConversationList.Component)
    (es : List ConversationList.Event) : ConversationList.Component :=
  es.foldl ConversationList.step c

/-! ## `AuthProvider` (`AuthContext.jsx`) -/

/-- The functions of the JavaScript library that `AuthProvider` applies to a user
value of type `α`: the truth value tested by `if (userData)`, the text produced
by `JSON.stringify`, and `JSON.parse`, which throws (`none`), yields `null`
(`some none`) or yields a value. -/
structure JsonLibrary (α : Type) where
  truthy : α → Bool
  stringify : α → String
  parse : String → Option (Option α)

/-- The `user`, `isAuthenticated` and `isLoading` cells of `AuthProvider` (lines 7-9)
with the texts kept in `localStorage` under the keys 'token' and 'user'. -/
structure AuthProvider.State (α : Type) where
  user : Option α
  isAuthenticated : Bool
  isLoading : Bool
  storageToken : Option String
  storageUser : Option String
deriving DecidableEq, Repr

/-- The state of lines 7-9 at the first render, over a given content of the storage. -/
def AuthProvider.State.initial {α : Type} (storageToken storageUser : Option String) :
    AuthProvider.State α :=
  { user := none, isAuthenticated := false, isLoading := true
    storageToken := storageToken, storageUser := storageUser }

/-- Lines 13-34: `loadUser`, called once by the mount effect.  With both texts present
and non-empty the parsed value becomes the user and `isAuthenticated` is set;
when `JSON.parse` throws both keys are removed. -/
def AuthProvider.loadUser {α : Type} (json : JsonLibrary α) (s : AuthProvider.State α) :
    AuthProvider.State α :=
  match s.storageToken, s.storageUser with
  | some token, some storedUser =>
    if token != "" && storedUser != "" then
      match json.parse storedUser with
      | some userData => { s with user := userData, isAuthenticated := true, isLoading := false }
      | none => { s with storageUser := none, storageToken := none, isLoading := false }
    else { s with isLoading := false }
  | _, _ => { s with isLoading := false }

/-- The mounted provider: the first render followed by the mount effect (lines 12-37). -/
def AuthProvider.mount {α : Type} (json : JsonLibrary α)
    (storageToken storageUser : Option String) : AuthProvider.State α :=
  AuthProvider.loadUser json (AuthProvider.State.initial storageToken storageUser)

/-- Lines 40-47; `none` stands for a `userData` that is `null` or `undefined`. -/
def AuthProvider.updateUser {α : Type} (json : JsonLibrary α) (userData : Option α)
    (s : AuthProvider.State α) : AuthProvider.State α :=
  match userData with
  | some d =>
    if json.truthy d then
      { s with user := some d, isAuthenticated := true, storageUser := some (json.stringify d) }
    else s
  | none => s

/-- Lines 50-58. -/
def AuthProvider.login {α : Type} (json : JsonLibrary α) (userData : Option α)
    (token : String) (s : AuthProvider.State α) : AuthProvider.State α :=
  AuthProvider.updateUser json userData { s with storageToken := some token }

/-- Lines 61-67. -/
def AuthProvider.logout {α : Type} (s : AuthProvider.State α) : AuthProvider.State α :=
  { s with storageToken := none, storageUser := none, user := none, isAuthenticated := false }

/-- A call of one of the three functions that `AuthProvider` hands to its children. -/
inductive AuthProvider.Call (α : Type) where
  | login (userData : Option α) (token : String)
  | updateUser (userData : Option α)
  | logout

/-- The effect of one call. -/
def AuthProvider.apply {α : Type} (json : JsonLibrary α) (s : AuthProvider.State α) :
    AuthProvider.Call α → AuthProvider.State α
  | .login userData token => AuthProvider.login json userData token s
  | .updateUser userData => AuthProvider.updateUser json userData s
  | .logout => AuthProvider.logout s

/-- A sequence of calls, oldest first. -/
def AuthProvider.runCalls {α : Type} (json : JsonLibrary α) (s : AuthProvider.State α)
    (calls : List (AuthProvider.Call α)) : AuthProvider.State α :=
  calls.foldl (AuthProvider.apply json) s

/-! ## `Auth.handleRegister` (`Auth.jsx`) -/

/-- The line terminators of JavaScript: LF, CR, U+2028 and U+2029. -/
def isLineTerminator (u : Nat) : Bool :=
  u == 0x0A || u == 0x0D || u == 0x2028 || u == 0x2029

/-- The atom `.` without the `s` flag: any code unit but a line terminator. -/
def matchesDot (u : Nat) : Bool := !isLineTerminator u

/-- The class `[a-z]`. -/
def isLowerUnit (u : Nat) : Bool := decide (0x61 ≤ u) && decide (u ≤ 0x7A)

/-- The class `[A-Z]`. -/
def isUpperUnit (u : Nat) : Bool := decide (0x41 ≤ u) && decide (u ≤ 0x5A)

/-- The class `\d`. -/
def isDigitUnit (u : Nat) : Bool := decide (0x30 ≤ u) && decide (u ≤ 0x39)

/-- The class `[^a-zA-Z0-9]`. -/
def isOtherUnit (u : Nat) : Bool := !(isLowerUnit u || isUpperUnit u || isDigitUnit u)

/-- The lookahead `(?=.*C)` at the start of the given units: some run of `.` is
followed by a unit of the class `C`. -/
def lookaheadDotStar (cls : Nat → Bool) : List Nat → Bool
  | [] => false
  | u :: us => cls u || (matchesDot u && lookaheadDotStar cls us)

/-- The tail `.{8,}$` at the start of the given units: eight or more `.` up to the
end of the input. -/
def dotsToEnd (us : List Nat) : Bool :=
  decide (8 ≤ us.length) && us.all matchesDot

/-- Line 96: `new RegExp(STRONG_PASSWORD_REGEX).test(password)` for the pattern of
line 8, `^(?=.*[a-z])(?=.*[A-Z])(?=.*\d)(?=.*[^a-zA-Z0-9]).{8,}$`. -/
def STRONG_PASSWORD_REGEX.test (password : String) : Bool :=
  lookaheadDotStar isLowerUnit (toUtf16 password) &&
  lookaheadDotStar isUpperUnit (toUtf16 password) &&
  lookaheadDotStar isDigitUnit (toUtf16 password) &&
  lookaheadDotStar isOtherUnit (toUtf16 password) &&
  dotsToEnd (toUtf16 password)

/-- Line 9. -/
def PASSWORD_TITLE : String :=
  "Must be at least 8 characters and include 1 uppercase, 1 lowercase, 1 number, and 1 special character."

/-- The `useState` cells of `AuthPage` (lines 14-20). -/
structure AuthPage.State where
  isRegister : Bool
  userId : String
  password : String
  username : String
  email : String
  message : String
  loading : Bool
deriving DecidableEq, Repr

/-- The body of `POST /auth/register` (lines 104-109). -/
structure RegisterRequest where
  username : String
  user_id : String
  passwd : String
  email : String
deriving DecidableEq, Repr

/-- Lines 88-109: `handleRegister` up to the `await`: the state it leaves and the
request it posts, if any. -/
def handleRegister (s : AuthPage.State) : AuthPage.State × Option RegisterRequest :=
  let s1 := { s with loading := true, message := "" }
  if !STRONG_PASSWORD_REGEX.test s.password then
    ({ s1 with message := "❌ " ++ PASSWORD_TITLE, loading := false }, none)
  else
    (s1, some { username := s.username, user_id := s.userId, passwd := s.password
                email := s.email })

/-- The rule in the words of the comment of line 7 and of `PASSWORD_TITLE`: at least
eight characters (counted as `password.length` does, in UTF-16 code units), one
of `a-z`, one of `A-Z`, one digit and one character outside these. -/
def statedPasswordRule (password : String) : Bool :=
  decide (8 ≤ (toUtf16 password).length) &&
  (toUtf16 password).any isLowerUnit && (toUtf16 password).any isUpperUnit &&
  (toUtf16 password).any isDigitUnit && (toUtf16 password).any isOtherUnit

/-! ## `ItemListing.applyFilters` (`ItemListing.jsx`) -/

/-- The fields of an item that `applyFilters` reads; `desc` and `type` may be absent. -/
structure ListedItem where
  desc : Option String
  type : Option String
  is_claimed : Bool
  created_at : String
deriving DecidableEq, Repr

/-- The filter cells of `ItemListingPage` (lines 17-22). -/
structure ItemFilters where
  searchQuery : String
  itemType : String
  showClaimed : Bool
  dateFrom : String
  dateTo : String
  itemStatus : String
deriving DecidableEq, Repr

/-- The initial values of the filter cells, also set by `handleRefresh`. -/
def ItemFilters.defaults : ItemFilters :=
  { searchQuery := "", itemType := "all", showClaimed := false, dateFrom := "", dateTo := ""
    itemStatus := "all" }

/-- The functions of the JavaScript library that `applyFilters` calls and whose code
is not part of the repository: `toLowerCase`, the time value of `new Date(text)`
(`none` for an invalid date), and the time value after `setHours(23, 59, 59, 999)`. -/
structure JsLibrary where
  toLowerCase : String → String
  dateValue : String → Option Int
  endOfDay : Int → Int

/-- The method `includes` of strings. -/
def jsIncludes (text part : String) : Bool :=
  decide (part.data <:+: text.data)

/-- The expression `value?.toLowerCase().includes(part)` as a condition: false when
the value is absent. -/
def lowerIncludes (js : JsLibrary) (value : Option String) (part : String) : Bool :=
  match value with
  | some v => jsIncludes (js.toLowerCase v) part
  | none => false

/-- The comparison `a >= b` of two dates: false when one of them is invalid. -/
def dateGe (a b : Option Int) : Bool :=
  match a, b with
  | some x, some y => decide (y ≤ x)
  | _, _ => false

/-- The comparison `a <= b` of two dates: false when one of them is invalid. -/
def dateLe (a b : Option Int) : Bool :=
  match a, b with
  | some x, some y => decide (x ≤ y)
  | _, _ => false

/-- Lines 59-107: the value that `applyFilters` hands to `setFilteredItems`. -/
def applyFilters (js : JsLibrary) (f : ItemFilters) (items : List ListedItem) :
    List ListedItem :=
  let filtered := items
  let filtered :=
    if f.searchQuery != "" then
      filtered.filter (fun item =>
        lowerIncludes js item.desc (js.toLowerCase f.searchQuery) ||
        lowerIncludes js item.type (js.toLowerCase f.searchQuery))
    else filtered
  let filtered :=
    if f.itemType != "all" then filtered.filter (fun item => item.type == some f.itemType)
    else filtered
  let filtered :=
    if !f.showClaimed then filtered.filter (fun item => !item.is_claimed) else filtered
  let filtered :=
    if f.itemStatus != "all" then
      filtered.filter (fun item => lowerIncludes js item.desc f.itemStatus)
    else filtered
  let filtered :=
    if f.dateFrom != "" then
      filtered.filter (fun item =>
        dateGe (js.dateValue item.created_at) (js.dateValue f.dateFrom))
    else filtered
  let filtered :=
    if f.dateTo != "" then
      filtered.filter (fun item =>
        dateLe (js.dateValue item.created_at) ((js.dateValue f.dateTo).map js.endOfDay))
    else filtered
  filtered

/-- The conjunction of the filter predicates that are active under the settings `f`;
a filter that is switched off lets every item pass. -/
def passesActiveFilters (js : JsLibrary) (f : ItemFilters) (item : ListedItem) : Bool :=
  (f.searchQuery == "" ||
    (lowerIncludes js item.desc (js.toLowerCase f.searchQuery) ||
     lowerIncludes js item.type (js.toLowerCase f.searchQuery))) &&
  (f.itemType == "all" || item.type == some f.itemType) &&
  (f.showClaimed || !item.is_claimed) &&
  (f.itemStatus == "all" || lowerIncludes js item.desc f.itemStatus) &&
  (f.dateFrom == "" ||
    dateGe (js.dateValue item.created_at) (js.dateValue f.dateFrom)) &&
  (f.dateTo == "" ||
    dateLe (js.dateValue item.created_at) ((js.dateValue f.dateTo).map js.endOfDay))

/-! ## Sample data for the concrete instances -/

/-- The current user "A". -/
def sampleUser : User := ⟨"A"⟩

/-- A conversation between "A" and "B". -/
def sampleConversation : Conversation := ⟨some ["A", "B"]⟩

/-- The message the server creates for the send of "hello". -/
def sampleReply : Message := ⟨"srv-9", "A", "hello", "t2", "sent"⟩

/-- A message of conversation "X" stored by the server. -/
def sampleOld : Message := ⟨"srv-1", "B", "hi", "t0", "sent"⟩

/-- A `ChatWindow` mounted on conversation "X" whose initial fetch is unresolved. -/
def sampleMounted : Component :=
  mount (some "X") (some sampleConversation) (some sampleUser)

/-- The window on "X" after the initial fetch returned `sampleOld` and the user
typed "hello". -/
def sampleTyped : Component :=
  run sampleMounted [.fetchSettle 0 (some (some [sampleOld])), .input " hello "]

/-- A successful send of "hello" on conversation "X" during which the response of
a GET issued by a tick before the submit arrives: the page was read by the server
before the POST and holds only `sampleOld`. -/
def sampleRace : List Event :=
  [.fetchSettle 0 (some (some [sampleOld])), .tick 0, .input " hello ",
   .submit 1700000000000 "t1", .fetchSettle 0 (some (some [sampleOld])),
   .sendSettle 0 (some sampleReply)]

/-- A conversation between "A" and "C". -/
def sampleOther : Conversation := ⟨some ["A", "C"]⟩

/-- The window after the user switched from "X" to "Y" while the initial fetch for
"X" is unresolved. -/
def sampleSwitched : Component :=
  run sampleMounted [.render (some "Y") (some sampleOther) (some sampleUser)]

/-- The window on "X" with the send of "hello" in flight and a GET issued by a tick. -/
def samplePending : Component :=
  run sampleTyped [.submit 1700000000000 "t1", .tick 0]

/-- The window on "X" after the initial fetch returned `sampleOld`. -/
def sampleLoaded : Component :=
  run sampleMounted [.fetchSettle 0 (some (some [sampleOld]))]

/-- The switch from "X" to "Y" followed by the rejection of the first GET for "Y". -/
def sampleFailedSwitch : List Event :=
  [.render (some "Y") (some sampleOther) (some sampleUser), .fetchSettle 0 none]

/-- The window on "X" opened with a conversation record that carries no
`participant_ids`, after the user typed "hello". -/
def sampleNoCounterparty : Component :=
  run (mount (some "X") (some ⟨none⟩) (some sampleUser))
    [.fetchSettle 0 (some (some [sampleOld])), .input "hello"]

/-- A message of "X" that the server stamped at second 5. -/
def sampleStamped : Message := ⟨"srv-5", "B", "hi", "2024-01-01T00:00:05.000Z", "sent"⟩

/-- The window on "X" holding `sampleStamped`, after the user typed "hello". -/
def sampleStampedTyped : Component :=
  run sampleMounted [.fetchSettle 0 (some (some [sampleStamped])), .input "hello"]

/-- Two accepted submits that read the same value of `Date.now()`, followed by the
success of the first POST. -/
def sampleSameReading : List Event :=
  [.submit 1700000000000 "t1", .input "again", .submit 1700000000000 "t1",
   .sendSettle 0 (some sampleReply)]

/-- The loaded window on "X" after the user typed blanks and a tab. -/
def sampleBlank : Component :=
  run sampleLoaded [.input "  \t "]

/-- The window on "X" with the send of "hello" in flight, after a poll response
replaced the thread by a page read before the POST. -/
def sampleOverwritten : Component :=
  step samplePending (.fetchSettle 0 (some (some [sampleOld])))

/-- Two conversations as the server lists them: the first with three unread
messages, the second with none. -/
def sampleDirectory : List ConversationEntry :=
  [⟨"c1", some ["A", "B"], some "hi", some "2024-01-02T00:00:00.000Z", 3⟩,
   ⟨"c2", some ["A", "C"], some "bye", some "2024-01-01T00:00:00.000Z", 0⟩]

/-- A mounted `ConversationList` whose fetch is unresolved. -/
def sampleList : ConversationList.Component :=
  ConversationList.mount none (some sampleUser)

/-- A mounted `ConversationList` that holds the two conversations of
`sampleDirectory` while a call of `getConversations` is unresolved, the state of
a second call made on the same instance. -/
def sampleListHolding : ConversationList.Component :=
  { selectedConversationId := some "c1", user := some sampleUser
    view := { conversations := sampleDirectory, loading := true, error := none }
    mounted := true, fetchCalls := 2, pendingFetches := 1 }

/-- The life of a mounted `ConversationList`: the fetch resolves, timers are asked
to fire, a conversation is selected. -/
def sampleListLife : List ConversationList.Event :=
  [.fetchSettle (some (some sampleDirectory)), .tick 0, .tick 1,
   .render (some "c1") (some sampleUser), .tick 0, .tick 2]

/-- The registration form filled in with a password of eight characters that ends
in the line separator U+2028. -/
def sampleRegistration : AuthPage.State :=
  { isRegister := true, userId := "u1", password := "Abcdef1\u2028", username := "Ann"
    email := "ann@example.org", message := "", loading := false }

/-- A stand-in for the JavaScript library in the concrete instances: lower-casing of
ASCII letters, dates read as decimal day numbers, and a day that ends where it
starts. -/
def sampleJs : JsLibrary :=
  { toLowerCase := fun text => String.mk (text.data.map Char.toLower)
    dateValue := fun text => some (Int.ofNat (valFrom 0 text.data))
    endOfDay := fun t => t }

/-- Three listed items: a lost key, a claimed book and a found phone. -/
def sampleItems : List ListedItem :=
  [⟨some "Lost house key", some "Keys", false, "10"⟩,
   ⟨some "Found novel", some "Books", true, "12"⟩,
   ⟨some "Found phone", some "Electronics", false, "15"⟩]

/-- A stand-in for JSON on user records: a record is written as its `user_id` between
quotation marks, a JSON string; the texts read back are such strings and `null`,
which reads as `null` as in `JSON.parse`; any other text is refused. -/
def sampleJson : JsonLibrary User :=
  { truthy := fun _ => true
    stringify := fun u => "\"" ++ u.user_id ++ "\""
    parse := fun text =>
      if text = "null" then some none
      else
        match text.data with
        | '"' :: rest =>
          if rest.getLast? = some '"' then some (some ⟨String.mk rest.dropLast⟩) else none
        | _ => none }

/-- An item that the current user "A" posted. -/
def sampleOwnItem : Item := ⟨"item-1", "A", "lost", "keys"⟩

/-! ## Helper lemmas on runs -/

theorem run_cons (c : Component) (e : Event) (es : List Event) :
    run c (e :: es) = run (step c e) es := rfl

theorem run_append (c : Component) (es1 es2 : List Event) :
    run c (es1 ++ es2) = run (run c es1) es2 := by
  simp [run, List.foldl_append]

theorem fetchMessages_frame (cid : Option String) (user : Option User) (timer : Option Nat)
    (c : Component) :
    (fetchMessages cid user timer c).view = c.view ∧
    (fetchMessages cid user timer c).pendingSends = c.pendingSends ∧
    (fetchMessages cid user timer c).mounted = c.mounted ∧
    (fetchMessages cid user timer c).intervals = c.intervals ∧
    (fetchMessages cid user timer c).nextHandle = c.nextHandle ∧
    (fetchMessages cid user timer c).cleanup = c.cleanup := by
  unfold fetchMessages
  split
  · split <;> simp
  · simp

theorem step_poll (c : Component) (e : Event) (hp : e.isPoll = true) :
    (step c e).pendingSends = c.pendingSends ∧ (step c e).mounted = c.mounted ∧
    ((step c e).view.messages = c.view.messages ∨
      ∃ k data, e = .fetchSettle k (some data) ∧ (step c e).view.messages = data.getD []) := by
  cases e with
  | tick h =>
    simp only [step]
    split
    · rename_i iv _
      obtain ⟨h1, h2, h3, -⟩ := fetchMessages_frame iv.conversationId iv.user (some h) c
      exact ⟨h2, h3, Or.inl (by rw [h1])⟩
    · exact ⟨rfl, rfl, Or.inl rfl⟩
  | fetchSettle k result =>
    simp only [step]
    split
    · exact ⟨rfl, rfl, Or.inl rfl⟩
    · split
      · exact ⟨rfl, rfl, Or.inl rfl⟩
      · cases result with
        | none => exact ⟨rfl, rfl, Or.inl rfl⟩
        | some data => exact ⟨rfl, rfl, Or.inr ⟨k, data, rfl, rfl⟩⟩
  | render _ _ _ => simp [Event.isPoll] at hp
  | unmount => simp [Event.isPoll] at hp
  | input _ => simp [Event.isPoll] at hp
  | submit _ _ => simp [Event.isPoll] at hp
  | sendSettle _ _ => simp [Event.isPoll] at hp

theorem run_polls (es : List Event) :
    ∀ (c : Component), (∀ e ∈ es, e.isPoll = true) →
    (run c es).pendingSends = c.pendingSends ∧ (run c es).mounted = c.mounted ∧
    ((run c es).view.messages = c.view.messages ∨
      ∃ k data, Event.fetchSettle k (some data) ∈ es ∧
        (run c es).view.messages = data.getD []) := by
  induction es with
  | nil => intro c _; exact ⟨rfl, rfl, Or.inl rfl⟩
  | cons e es ih =>
    intro c hp
    rw [run_cons]
    obtain ⟨s1, s2, s3⟩ := step_poll c e (hp e (by simp))
    obtain ⟨r1, r2, r3⟩ := ih (step c e) (fun e1 he1 => hp e1 (by simp [he1]))
    refine ⟨r1.trans s1, r2.trans s2, ?_⟩
    rcases r3 with r3 | ⟨k, data, hmem, hr⟩
    · rcases s3 with s3 | ⟨k, data, he, hs⟩
      · exact Or.inl (r3.trans s3)
      · exact Or.inr ⟨k, data, by simp [he], r3.trans hs⟩
    · exact Or.inr ⟨k, data, by simp [hmem], hr⟩


theorem submit_accepted (c : Component) (now : Nat) (iso : String)
    (hm : c.mounted = true)
    (hacc : handleSend.accepted c.conversationId c.user c.view = true) :
    ∃ u, c.user = some u ∧
      (step c (.submit now iso)).view.messages
        = c.view.messages ++ [handleSend.tempMessage now iso u c.view] ∧
      (step c (.submit now iso)).pendingSends
        = c.pendingSends ++ [⟨toString now, handleSend.payload c.conversation u c.view⟩] ∧
      (step c (.submit now iso)).mounted = true := by
  cases hu : c.user with
  | none => simp [handleSend.accepted, hu] at hacc
  | some u =>
    refine ⟨u, rfl, ?_⟩
    rw [hu] at hacc
    simp [step, hm, handleSend, hu, hacc, handleSend.optimistic, handleSend.append,
      handleSend.tempMessage]

theorem sendSettle_messages (c : Component) (k : Nat) (call : SendCall)
    (result : Option Message) (hm : c.mounted = true) (hk : c.pendingSends[k]? = some call) :
    (step c (.sendSettle k result)).view.messages =
      match result with
      | some data => handleSend.swap call.tempId data c.view.messages
      | none => handleSend.remove call.tempId c.view.messages := by
  cases result <;> simp [step, hk, hm, handleSend.onSuccess, handleSend.onFailure]

theorem settle_clears_placeholder (tempId : String) (result : Option Message)
    (thread : List Message)
    (hdata : ∀ data, result = some data → data.message_id ≠ tempId) :
    ∀ m ∈ (match result with
      | some data => handleSend.swap tempId data thread
      | none => handleSend.remove tempId thread), m.message_id ≠ tempId := by
  cases result with
  | none =>
    intro m hm
    simp only [handleSend.remove, List.mem_filter] at hm
    simpa using hm.2
  | some data =>
    intro m hm
    simp only [handleSend.swap, List.mem_map] at hm
    obtain ⟨a, _, ha⟩ := hm
    by_cases hid : a.message_id = tempId
    · rw [if_pos hid] at ha
      rw [← ha]
      exact hdata data rfl
    · rw [if_neg hid] at ha
      rw [← ha]
      exact hid

theorem run_quiet (es : List Event) (c : Component) (hq : ∀ e ∈ es, e.isQuiet = true) :
    (run c es).pendingSends = c.pendingSends ∧ (run c es).mounted = c.mounted ∧
    (run c es).view.messages = c.view.messages := by
  have hp : ∀ e ∈ es, e.isPoll = true := by
    intro e he
    have h := hq e he
    cases e <;> simp_all [Event.isQuiet, Event.isPoll]
  obtain ⟨h1, h2, h3⟩ := run_polls es c hp
  refine ⟨h1, h2, ?_⟩
  rcases h3 with h3 | ⟨k, data, hmem, _⟩
  · exact h3
  · have h := hq _ hmem
    simp [Event.isQuiet] at h

theorem remove_append_fresh (prev : List Message) (tempMessage : Message)
    (hfresh : ∀ m ∈ prev, m.message_id ≠ tempMessage.message_id) :
    handleSend.remove tempMessage.message_id (handleSend.append tempMessage prev) = prev := by
  unfold handleSend.remove handleSend.append
  rw [List.filter_append]
  have h1 : prev.filter (fun msg => msg.message_id != tempMessage.message_id) = prev := by
    rw [List.filter_eq_self]
    intro m hm
    simpa using hfresh m hm
  rw [h1]
  simp

/-! ## Theorems: the optimistic send on the thread -/

/-- The claim C1: an accepted send on a mounted component whose thread holds no entry
with the placeholder id; the POST is rejected and no poll response is applied in
between (only ticks and rejected GETs).  The submit appends the provisional entry,
and after the rollback the thread is exactly the thread before the send: the same
entries in the same order, hence the same length. -/
theorem rollback_restores_thread (c : Component) (now : Nat) (iso : String)
    (es : List Event)
    (hm : c.mounted = true)
    (hacc : handleSend.accepted c.conversationId c.user c.view = true)
    (hquiet : ∀ e ∈ es, e.isQuiet = true)
    (hfresh : ∀ m ∈ c.view.messages, m.message_id ≠ toString now) :
    (run c [.submit now iso]).view.messages.length = c.view.messages.length + 1 ∧
    (run c ((.submit now iso :: es) ++
        [.sendSettle c.pendingSends.length none])).view.messages = c.view.messages ∧
    (run c ((.submit now iso :: es) ++
        [.sendSettle c.pendingSends.length none])).view.messages.length
      = c.view.messages.length := by
  obtain ⟨u, _, hmsg, hpend, hmount⟩ := submit_accepted c now iso hm hacc
  obtain ⟨a1, a2, a3⟩ := run_quiet es (step c (.submit now iso)) hquiet
  have hk : (run (step c (.submit now iso)) es).pendingSends[c.pendingSends.length]?
      = some ⟨toString now, handleSend.payload c.conversation u c.view⟩ := by
    rw [a1, hpend]
    simp
  have hsettle := sendSettle_messages (run (step c (.submit now iso)) es)
    c.pendingSends.length _ none (a2.trans hmount) hk
  have hthread : (run c ((.submit now iso :: es) ++
      [.sendSettle c.pendingSends.length none])).view.messages = c.view.messages := by
    rw [run_append, run_cons c]
    show (step (run (step c (.submit now iso)) es)
      (.sendSettle c.pendingSends.length none)).view.messages = c.view.messages
    rw [hsettle, a3, hmsg]
    exact remove_append_fresh c.view.messages (handleSend.tempMessage now iso u c.view) hfresh
  refine ⟨?_, hthread, by rw [hthread]⟩
  show (step c (.submit now iso)).view.messages.length = _
  rw [hmsg]
  simp

/-- A concrete instance of C1: "hello" is sent after `sampleOld`, a tick fires while
the POST is in flight, and the POST is rejected. -/
theorem rollback_restores_thread_witness :
    handleSend.accepted sampleTyped.conversationId sampleTyped.user sampleTyped.view = true ∧
    (run sampleTyped ((.submit 1700000000000 "t1" :: [.tick 0]) ++
        [.sendSettle sampleTyped.pendingSends.length none])).view.messages = [sampleOld] :=
  ⟨by decide,
   (rollback_restores_thread sampleTyped 1700000000000 "t1" [.tick 0]
      (by decide) (by decide) (by decide) (by decide)).2.1⟩

/-- The claim C2: on a thread that contains the provisional entry, the success
reconciliation (map by placeholder id) keeps the length, puts the server-returned
message at every index that held an entry with the placeholder id, and leaves
every entry with another id unchanged at its index. -/
theorem swap_replaces_in_place (thread : List Message) (tempId : String) (data : Message)
    (hprov : ∃ m ∈ thread, m.message_id = tempId) :
    (handleSend.swap tempId data thread).length = thread.length ∧
    data ∈ handleSend.swap tempId data thread ∧
    ∀ (i : Nat) (m : Message), thread[i]? = some m →
      (m.message_id = tempId → (handleSend.swap tempId data thread)[i]? = some data) ∧
      (m.message_id ≠ tempId → (handleSend.swap tempId data thread)[i]? = some m) := by
  refine ⟨by simp [handleSend.swap], ?_, ?_⟩
  · obtain ⟨m, hm, hid⟩ := hprov
    unfold handleSend.swap
    rw [List.mem_map]
    exact ⟨m, hm, by simp [hid]⟩
  · intro i m hi
    unfold handleSend.swap
    rw [List.getElem?_map, hi]
    constructor
    · intro h; simp [h]
    · intro h; simp [h]

/-- A concrete instance of C2: the provisional entry sits between two other messages. -/
theorem swap_replaces_in_place_witness :
    handleSend.swap "1700000000000" ⟨"srv-9", "A", "hello", "t2", "sent"⟩
        [⟨"srv-1", "B", "hi", "t0", "sent"⟩, ⟨"1700000000000", "A", "hello", "t1", "sent"⟩,
         ⟨"srv-2", "B", "you there", "t1", "sent"⟩]
      = [⟨"srv-1", "B", "hi", "t0", "sent"⟩, ⟨"srv-9", "A", "hello", "t2", "sent"⟩,
         ⟨"srv-2", "B", "you there", "t1", "sent"⟩] ∧
    (handleSend.swap "1700000000000" ⟨"srv-9", "A", "hello", "t2", "sent"⟩
        [⟨"srv-1", "B", "hi", "t0", "sent"⟩, ⟨"1700000000000", "A", "hello", "t1", "sent"⟩,
         ⟨"srv-2", "B", "you there", "t1", "sent"⟩]).length = 3 :=
  ⟨by decide,
   (swap_replaces_in_place
      [⟨"srv-1", "B", "hi", "t0", "sent"⟩, ⟨"1700000000000", "A", "hello", "t1", "sent"⟩,
       ⟨"srv-2", "B", "you there", "t1", "sent"⟩]
      "1700000000000" ⟨"srv-9", "A", "hello", "t2", "sent"⟩
      ⟨⟨"1700000000000", "A", "hello", "t1", "sent"⟩, by decide, rfl⟩).1⟩


/-- The claim C3: one accepted send is started on a mounted component, poll
traffic (ticks and settled GETs, in any number and order) is interleaved before
and after the send settles, and server-issued ids never equal the placeholder id
(in the polled pages and in the POST response).  The server-returned message is
created by the POST, so the thread at the start of the send holds no entry with
its id.  Then at every moment of the flight the thread does not hold both an
entry with the placeholder id and an entry with the id of the server-returned
message, and from the settle on (success or failure) it holds no entry with the
placeholder id.  The provisional entry is in the thread right after the submit. -/
theorem no_double_representation (c : Component) (now : Nat) (iso : String)
    (es1 es2 : List Event) (result : Option Message)
    (hm : c.mounted = true)
    (hacc : handleSend.accepted c.conversationId c.user c.view = true)
    (hpoll : ∀ e ∈ es1 ++ es2, e.isPoll = true)
    (hpages : ∀ k data, Event.fetchSettle k (some data) ∈ es1 ++ es2 →
      ∀ m ∈ data.getD [], m.message_id ≠ toString now)
    (hdata : ∀ data, result = some data → data.message_id ≠ toString now ∧
      ∀ m ∈ c.view.messages, m.message_id ≠ data.message_id) :
    (∃ m ∈ (run c [.submit now iso]).view.messages, m.message_id = toString now) ∧
    (∀ data, result = some data →
      ¬ ((∃ m ∈ (run c (.submit now iso :: es1)).view.messages,
            m.message_id = toString now) ∧
         (∃ m ∈ (run c (.submit now iso :: es1)).view.messages,
            m.message_id = data.message_id))) ∧
    (∀ m ∈ (run c ((.submit now iso :: es1) ++
          (.sendSettle c.pendingSends.length result :: es2))).view.messages,
        m.message_id ≠ toString now) := by
  obtain ⟨u, _, hmsg, hpend, hmount⟩ := submit_accepted c now iso hm hacc
  have hp1 : ∀ e ∈ es1, e.isPoll = true := fun e he => hpoll e (by simp [he])
  have hp2 : ∀ e ∈ es2, e.isPoll = true := fun e he => hpoll e (by simp [he])
  obtain ⟨a1, a2, a3⟩ := run_polls es1 (step c (.submit now iso)) hp1
  refine ⟨?_, ?_, ?_⟩
  · refine ⟨handleSend.tempMessage now iso u c.view, ?_, rfl⟩
    show _ ∈ (step c (.submit now iso)).view.messages
    rw [hmsg]
    simp
  · intro data hres
    obtain ⟨_, hfresh⟩ := hdata data hres
    rw [run_cons]
    rintro ⟨⟨m1, hm1, hid1⟩, ⟨m2, hm2, hid2⟩⟩
    rcases a3 with a3 | ⟨k, page, hmem, a3⟩
    · rw [a3, hmsg] at hm2
      rw [List.mem_append, List.mem_singleton] at hm2
      rcases hm2 with hm2 | hm2
      · exact hfresh m2 hm2 hid2
      · rw [hm2] at hid2
        exact (hdata data hres).1 hid2.symm
    · rw [a3] at hm1
      exact hpages k page (by simp [hmem]) m1 hm1 hid1
  · rw [run_append, run_cons c, run_cons (run (step c (.submit now iso)) es1)]
    have hk : (run (step c (.submit now iso)) es1).pendingSends[c.pendingSends.length]?
        = some ⟨toString now, handleSend.payload c.conversation u c.view⟩ := by
      rw [a1, hpend]
      simp
    have hsettle := sendSettle_messages (run (step c (.submit now iso)) es1)
      c.pendingSends.length _ result (a2.trans hmount) hk
    have hclear := settle_clears_placeholder (toString now) result
      (run (step c (.submit now iso)) es1).view.messages (fun data hres => (hdata data hres).1)
    rw [← hsettle] at hclear
    obtain ⟨_, _, b3⟩ := run_polls es2
      (step (run (step c (.submit now iso)) es1) (.sendSettle c.pendingSends.length result)) hp2
    rcases b3 with b3 | ⟨k, page, hmem, b3⟩
    · rw [b3]
      exact hclear
    · rw [b3]
      exact hpages k page (by simp [hmem])


/-- A concrete instance of C3: the poll response that already carries the stored
message arrives before the POST response, and one more tick follows the settle. -/
theorem no_double_representation_witness :
    (run sampleTyped ((.submit 1700000000000 "t1" ::
          [.tick 0, .fetchSettle 0 (some (some [sampleOld, sampleReply]))]) ++
          (.sendSettle sampleTyped.pendingSends.length (some sampleReply) ::
            [.tick 0]))).view.messages.all
      (fun m => m.message_id != toString 1700000000000) = true := by
  rw [List.all_eq_true]
  intro m hmem
  have hne := (no_double_representation sampleTyped 1700000000000 "t1"
    [.tick 0, .fetchSettle 0 (some (some [sampleOld, sampleReply]))] [.tick 0]
    (some sampleReply) (by decide) (by decide) (by decide)
    (by
      intro k data h
      simp only [List.cons_append, List.nil_append, List.mem_cons, List.mem_singleton,
        Event.fetchSettle.injEq, Option.some.injEq, reduceCtorEq, false_or, or_false,
        List.not_mem_nil] at h
      obtain ⟨-, rfl⟩ := h
      decide)
    (by
      intro data h
      cases h
      decide)).2.2 m hmem
  simpa using hne

/-- Against the claim C4 as stated: in the run `sampleRace` the send of "hello"
succeeds (the POST was made and has settled), a poll response is applied while it
is in flight, and after the success reconciliation the thread holds no entry
whose content is "hello". -/
theorem successful_send_can_leave_no_entry :
    (run sampleMounted sampleRace).sendLog = [⟨"B", "hello"⟩] ∧
    (run sampleMounted sampleRace).pendingSends = [] ∧
    (run sampleMounted sampleRace).view.messages = [sampleOld] ∧
    (run sampleMounted sampleRace).view.messages.countP (fun m => m.content == "hello") = 0 := by
  decide

/-- The claim C4 as amended: an accepted send on a mounted component succeeds
while no poll response is applied (only ticks and rejected GETs in between); the
thread before the send holds no entry with the placeholder id and none with the
sent content, and the server-returned message carries the sent content.  Then
after the success reconciliation the thread is the earlier thread followed by the
server-returned message, and exactly one entry has the sent content. -/
theorem successful_send_without_poll (c : Component) (now : Nat) (iso : String)
    (es : List Event) (data : Message)
    (hm : c.mounted = true)
    (hacc : handleSend.accepted c.conversationId c.user c.view = true)
    (hquiet : ∀ e ∈ es, e.isQuiet = true)
    (hfresh : ∀ m ∈ c.view.messages, m.message_id ≠ toString now)
    (hnew : ∀ m ∈ c.view.messages, m.content ≠ jsTrim c.view.newMessage)
    (hecho : data.content = jsTrim c.view.newMessage) :
    (run c ((.submit now iso :: es) ++
        [.sendSettle c.pendingSends.length (some data)])).view.messages
      = c.view.messages ++ [data] ∧
    (run c ((.submit now iso :: es) ++
        [.sendSettle c.pendingSends.length (some data)])).view.messages.countP
      (fun m => m.content == jsTrim c.view.newMessage) = 1 := by
  obtain ⟨u, _, hmsg, hpend, hmount⟩ := submit_accepted c now iso hm hacc
  obtain ⟨a1, a2, a3⟩ := run_quiet es (step c (.submit now iso)) hquiet
  have hk : (run (step c (.submit now iso)) es).pendingSends[c.pendingSends.length]?
      = some ⟨toString now, handleSend.payload c.conversation u c.view⟩ := by
    rw [a1, hpend]
    simp
  have hsettle := sendSettle_messages (run (step c (.submit now iso)) es)
    c.pendingSends.length _ (some data) (a2.trans hmount) hk
  have hthread : (run c ((.submit now iso :: es) ++
      [.sendSettle c.pendingSends.length (some data)])).view.messages
      = c.view.messages ++ [data] := by
    rw [run_append, run_cons c]
    show (step (run (step c (.submit now iso)) es)
      (.sendSettle c.pendingSends.length (some data))).view.messages = c.view.messages ++ [data]
    rw [hsettle, a3, hmsg]
    simp only [handleSend.swap, List.map_append, List.map_cons, List.map_nil]
    have h1 : c.view.messages.map
        (fun msg => if msg.message_id = toString now then data else msg) = c.view.messages := by
      conv_rhs => rw [← List.map_id c.view.messages]
      apply List.map_congr_left
      intro m hmem
      simp [hfresh m hmem]
    rw [h1]
    simp [handleSend.tempMessage]
  refine ⟨hthread, ?_⟩
  rw [hthread, List.countP_append]
  have h0 : c.view.messages.countP (fun m => m.content == jsTrim c.view.newMessage) = 0 := by
    rw [List.countP_eq_zero]
    intro m hmem
    simpa using hnew m hmem
  rw [h0]
  simp [hecho]

/-- A concrete instance of the amended C4: "hello" is sent after `sampleOld`, a tick
fires and a GET is rejected while the POST is in flight. -/
theorem successful_send_without_poll_witness :
    (run sampleTyped ((.submit 1700000000000 "t1" :: [.tick 0, .fetchSettle 0 none]) ++
        [.sendSettle sampleTyped.pendingSends.length (some sampleReply)])).view.messages
      = [sampleOld, sampleReply] :=
  (successful_send_without_poll sampleTyped 1700000000000 "t1" [.tick 0, .fetchSettle 0 none]
    sampleReply (by decide) (by decide) (by decide) (by decide) (by decide) (by decide)).1


/-! ## Theorems: polling -/

/-- Against the claim C5 as stated: after the switch from "X" to "Y" the GET issued
for "X" is still unresolved; when it resolves, its page becomes the thread shown
for "Y". -/
theorem stale_response_overwrites_thread :
    sampleSwitched.conversationId = some "Y" ∧
    sampleSwitched.pendingFetches[0]? = some ⟨"X", none⟩ ∧
    sampleSwitched.view.messages = [] ∧
    (step sampleSwitched (.fetchSettle 0 (some (some [sampleOld])))).view.messages
      = [sampleOld] := by
  decide

/-- The claim C5 as amended: a response to a GET issued for a conversation that is no
longer the active one is applied like any other response.  When it resolves, the
messages state becomes the list it carries (the empty list when it carries none);
the messages state is left unchanged only when that call is rejected. -/
theorem stale_response_is_applied (c : Component) (k : Nat) (call : FetchCall)
    (data : Option (List Message))
    (hm : c.mounted = true)
    (hk : c.pendingFetches[k]? = some call)
    (hstale : c.conversationId ≠ some call.target) :
    (step c (.fetchSettle k (some data))).view.messages = data.getD [] ∧
    (step c (.fetchSettle k (some data))).conversationId ≠ some call.target ∧
    (step c (.fetchSettle k none)).view.messages = c.view.messages := by
  refine ⟨?_, ?_, ?_⟩
  · simp [step, hk, hm, fetchMessages.onSuccess]
  · simpa [step, hk, hm] using hstale
  · simp [step, hk, hm, fetchMessages.onFailure]

/-- A concrete instance of the amended C5: the switch from "X" to "Y". -/
theorem stale_response_is_applied_witness :
    (step sampleSwitched (.fetchSettle 0 (some (some [sampleOld])))).view.messages
      = (some [sampleOld]).getD [] ∧
    (step sampleSwitched (.fetchSettle 0 (some (some [sampleOld])))).conversationId
      ≠ some (FetchCall.mk "X" none).target ∧
    (step sampleSwitched (.fetchSettle 0 none)).view.messages
      = sampleSwitched.view.messages :=
  stale_response_is_applied sampleSwitched 0 ⟨"X", none⟩ (some [sampleOld])
    (by decide) (by decide) (by decide)

theorem runCleanup_frame (c : Component) :
    (∀ iv ∈ (runCleanup c).intervals, iv ∈ c.intervals) ∧
    (runCleanup c).nextHandle = c.nextHandle ∧
    (runCleanup c).fetchLog = c.fetchLog ∧
    (runCleanup c).cleanup = none ∧
    (runCleanup c).conversationId = c.conversationId ∧
    (runCleanup c).user = c.user ∧
    (∀ h, c.cleanup = some h → ∀ iv ∈ (runCleanup c).intervals, iv.handle ≠ h) := by
  unfold runCleanup
  cases hc : c.cleanup with
  | none => simp [hc]
  | some h =>
    refine ⟨?_, rfl, rfl, rfl, rfl, rfl, ?_⟩
    · intro iv hiv
      exact (List.mem_filter.mp hiv).1
    · intro h1 h2 iv hiv
      have := (List.mem_filter.mp hiv).2
      cases h2
      simpa using this

theorem pollingEffect_frame (c : Component) :
    ((pollingEffect c).intervals = c.intervals ∧
      (pollingEffect c).nextHandle = c.nextHandle ∧
      (pollingEffect c).cleanup = none ∧
      (pollingEffect c).fetchLog = c.fetchLog) ∨
    (truthyId c.conversationId = true ∧ c.user.isSome = true ∧
      (pollingEffect c).intervals = c.intervals ++ [⟨c.nextHandle, c.conversationId, c.user⟩] ∧
      (pollingEffect c).nextHandle = c.nextHandle + 1 ∧
      (pollingEffect c).cleanup = some c.nextHandle ∧
      ∃ cid, (pollingEffect c).fetchLog = c.fetchLog ++ [⟨cid, none⟩]) := by
  unfold pollingEffect
  split
  · exact Or.inl ⟨rfl, rfl, rfl, rfl⟩
  · rename_i hg
    simp only [Bool.or_eq_true, Bool.not_eq_true', not_or, Bool.not_eq_false,
      Option.isNone_iff_eq_none] at hg
    obtain ⟨hid, hu⟩ := hg
    right
    cases hcid : c.conversationId with
    | none => simp [hcid, truthyId] at hid
    | some cid =>
      cases hus : c.user with
      | none => exact absurd hus hu
      | some u =>
        have hne : cid ≠ "" := by simpa [hcid, truthyId] using hid
        simp [fetchMessages, hne, truthyId]


theorem fetchMessages_log (cid : Option String) (user : Option User) (timer : Option Nat)
    (c : Component) :
    ((fetchMessages cid user timer c).fetchLog = c.fetchLog ∧
      (fetchMessages cid user timer c).pendingFetches = c.pendingFetches) ∨
    (truthyId cid = true ∧ user.isSome = true ∧ ∃ t,
      (fetchMessages cid user timer c).fetchLog = c.fetchLog ++ [⟨t, timer⟩] ∧
      (fetchMessages cid user timer c).pendingFetches = c.pendingFetches ++ [⟨t, timer⟩]) := by
  unfold fetchMessages
  split
  · rename_i t u
    split
    · exact Or.inl ⟨rfl, rfl⟩
    · rename_i hne
      exact Or.inr ⟨by simpa [truthyId] using hne, rfl, t, rfl, rfl⟩
  · exact Or.inl ⟨rfl, rfl⟩

theorem handleSend_frame (now : Nat) (iso : String) (c : Component) :
    (handleSend now iso c).intervals = c.intervals ∧
    (handleSend now iso c).nextHandle = c.nextHandle ∧
    (handleSend now iso c).cleanup = c.cleanup ∧
    (handleSend now iso c).fetchLog = c.fetchLog ∧
    (handleSend now iso c).pendingFetches = c.pendingFetches := by
  unfold handleSend
  split
  · simp
  · split <;> simp

theorem WF_runCleanup (c : Component) (hc : c.WF) : (runCleanup c).WF := by
  obtain ⟨h1, h2, _, h4, _, _, _⟩ := runCleanup_frame c
  refine ⟨?_, ?_⟩
  · intro iv hiv
    rw [h2]
    exact hc.1 iv (h1 iv hiv)
  · intro h hh
    rw [h4] at hh
    cases hh

theorem WF_pollingEffect (c : Component) (hc : c.WF) : (pollingEffect c).WF := by
  rcases pollingEffect_frame c with ⟨h1, h2, h3, _⟩ | ⟨hid, hu, h1, h2, h3, _⟩
  · refine ⟨?_, ?_⟩
    · rw [h1, h2]
      exact hc.1
    · intro h hh
      rw [h3] at hh
      cases hh
  · refine ⟨?_, ?_⟩
    · intro iv hiv
      rw [h1, List.mem_append, List.mem_singleton] at hiv
      rw [h2]
      rcases hiv with hiv | hiv
      · obtain ⟨a, b, d⟩ := hc.1 iv hiv
        exact ⟨by omega, b, d⟩
      · rw [hiv]
        exact ⟨by simp, hid, hu⟩
    · intro h hh
      rw [h3] at hh
      cases hh
      rw [h2]
      omega

theorem WF_of_frame (c d : Component) (hc : c.WF) (h1 : d.intervals = c.intervals)
    (h2 : d.nextHandle = c.nextHandle) (h3 : d.cleanup = c.cleanup) : d.WF := by
  unfold Component.WF
  rw [h1, h2, h3]
  exact hc

theorem WF_step (c : Component) (e : Event) (hc : c.WF) : (step c e).WF := by
  cases e with
  | render cid conv user =>
    simp only [step]
    split
    · exact hc
    · split
      · apply WF_pollingEffect
        apply WF_runCleanup
        exact hc
      · exact hc
  | unmount =>
    simp only [step]
    split
    · exact hc
    · exact WF_runCleanup c hc
  | tick h =>
    simp only [step]
    split
    · rename_i iv _
      obtain ⟨_, _, _, h4, h5, h6⟩ := fetchMessages_frame iv.conversationId iv.user (some h) c
      exact WF_of_frame c _ hc h4 h5 h6
    · exact hc
  | fetchSettle k result =>
    simp only [step]
    split
    · exact hc
    · split
      · exact hc
      · cases result <;> exact hc
  | input text =>
    simp only [step]
    split <;> exact hc
  | submit now iso =>
    simp only [step]
    split
    · exact hc
    · obtain ⟨h1, h2, h3, _⟩ := handleSend_frame now iso c
      exact WF_of_frame c _ hc h1 h2 h3
  | sendSettle k result =>
    simp only [step]
    split
    · exact hc
    · split
      · exact hc
      · cases result <;> exact hc

theorem WF_run (es : List Event) : ∀ (c : Component), c.WF → (run c es).WF := by
  induction es with
  | nil => intro c hc; exact hc
  | cons e es ih => intro c hc; exact ih (step c e) (WF_step c e hc)

theorem WF_mount (cid : Option String) (conv : Option Conversation) (user : Option User) :
    (mount cid conv user).WF := by
  unfold mount
  apply WF_pollingEffect
  refine ⟨?_, ?_⟩
  · intro iv hiv
    simp at hiv
  · intro h hh
    simp at hh


theorem Cancelled_of_frame (h : Nat) (c d : Component) (hc : c.Cancelled h)
    (h1 : d.intervals = c.intervals) (h2 : d.nextHandle = c.nextHandle) : d.Cancelled h := by
  unfold Component.Cancelled
  rw [h1, h2]
  exact hc

theorem Cancelled_runCleanup (h : Nat) (c : Component) (hc : c.Cancelled h) :
    (runCleanup c).Cancelled h := by
  obtain ⟨h1, h2, _⟩ := runCleanup_frame c
  refine ⟨?_, ?_⟩
  · intro iv hiv
    exact hc.1 iv (h1 iv hiv)
  · rw [h2]
    exact hc.2

theorem Cancelled_pollingEffect (h : Nat) (c : Component) (hc : c.Cancelled h) :
    (pollingEffect c).Cancelled h ∧
    ∃ later, (pollingEffect c).fetchLog = c.fetchLog ++ later ∧
      ∀ call ∈ later, call.timer ≠ some h := by
  rcases pollingEffect_frame c with ⟨h1, h2, _, h4⟩ | ⟨_, _, h1, h2, _, t, h4⟩
  · exact ⟨Cancelled_of_frame h c _ hc h1 h2, [], by simp [h4], by simp⟩
  · refine ⟨⟨?_, ?_⟩, [⟨t, none⟩], h4, by simp⟩
    · intro iv hiv
      rw [h1, List.mem_append, List.mem_singleton] at hiv
      rcases hiv with hiv | hiv
      · exact hc.1 iv hiv
      · rw [hiv]
        have := hc.2
        show c.nextHandle ≠ h
        omega
    · rw [h2]
      have := hc.2
      omega

theorem Cancelled_effect_after_cleanup (h : Nat) (d : Component) (hd : d.Cancelled h) :
    (pollingEffect (runCleanup d)).Cancelled h ∧
    ∃ later, (pollingEffect (runCleanup d)).fetchLog = d.fetchLog ++ later ∧
      ∀ call ∈ later, call.timer ≠ some h := by
  have h0 : (runCleanup d).fetchLog = d.fetchLog := (runCleanup_frame d).2.2.1
  have := Cancelled_pollingEffect h _ (Cancelled_runCleanup h d hd)
  rw [h0] at this
  exact this

theorem runCleanup_cancels (h : Nat) (d : Component) (hlt : h < d.nextHandle)
    (hh : d.cleanup = some h) : (runCleanup d).Cancelled h := by
  obtain ⟨_, f2, _, _, _, _, f7⟩ := runCleanup_frame d
  exact ⟨f7 h hh, by rw [f2]; exact hlt⟩

theorem Cancelled_step (h : Nat) (c : Component) (e : Event) (hc : c.Cancelled h) :
    (step c e).Cancelled h ∧
    ∃ later, (step c e).fetchLog = c.fetchLog ++ later ∧
      ∀ call ∈ later, call.timer ≠ some h := by
  have stay : ∀ d : Component, d.intervals = c.intervals → d.nextHandle = c.nextHandle →
      d.fetchLog = c.fetchLog →
      d.Cancelled h ∧ ∃ later, d.fetchLog = c.fetchLog ++ later ∧
        ∀ call ∈ later, call.timer ≠ some h :=
    fun d h1 h2 h3 => ⟨Cancelled_of_frame h c d hc h1 h2, [], by simp [h3], by simp⟩
  cases e with
  | render cid conv user =>
    simp only [step]
    split
    · exact stay c rfl rfl rfl
    · split
      · exact Cancelled_effect_after_cleanup h _ hc
      · exact stay _ rfl rfl rfl
  | unmount =>
    simp only [step]
    split
    · exact stay c rfl rfl rfl
    · have hcl := Cancelled_runCleanup h c hc
      have h0 : (runCleanup c).fetchLog = c.fetchLog := (runCleanup_frame c).2.2.1
      exact ⟨hcl, [], by simp [h0], by simp⟩
  | tick h1 =>
    simp only [step]
    split
    · rename_i iv hfind
      have hmem : iv ∈ c.intervals := List.mem_of_find?_eq_some hfind
      have hh : iv.handle = h1 := by
        have := List.find?_some hfind
        simpa using this
      have hne : h1 ≠ h := by
        rw [← hh]
        exact hc.1 iv hmem
      obtain ⟨_, _, _, f4, f5, _⟩ := fetchMessages_frame iv.conversationId iv.user (some h1) c
      refine ⟨Cancelled_of_frame h c _ hc f4 f5, ?_⟩
      rcases fetchMessages_log iv.conversationId iv.user (some h1) c with
        ⟨g, _⟩ | ⟨_, _, t, g, _⟩
      · exact ⟨[], by simp [g], by simp⟩
      · refine ⟨[⟨t, some h1⟩], g, ?_⟩
        intro call hcall
        rw [List.mem_singleton] at hcall
        rw [hcall]
        simpa using hne
    · exact stay c rfl rfl rfl
  | fetchSettle k result =>
    simp only [step]
    split
    · exact stay c rfl rfl rfl
    · split
      · exact stay _ rfl rfl rfl
      · cases result <;> exact stay _ rfl rfl rfl
  | input text =>
    simp only [step]
    split <;> exact stay _ rfl rfl rfl
  | submit now iso =>
    simp only [step]
    split
    · exact stay c rfl rfl rfl
    · obtain ⟨h1, h2, _, h4, _⟩ := handleSend_frame now iso c
      exact stay _ h1 h2 h4
  | sendSettle k result =>
    simp only [step]
    split
    · exact stay c rfl rfl rfl
    · split
      · exact stay _ rfl rfl rfl
      · cases result <;> exact stay _ rfl rfl rfl

theorem Cancelled_run (h : Nat) (es : List Event) :
    ∀ (c : Component), c.Cancelled h →
    ∃ later, (run c es).fetchLog = c.fetchLog ++ later ∧
      ∀ call ∈ later, call.timer ≠ some h := by
  induction es with
  | nil => intro c _; exact ⟨[], by simp [run], by simp⟩
  | cons e es ih =>
    intro c hc
    obtain ⟨hc1, l1, e1, n1⟩ := Cancelled_step h c e hc
    obtain ⟨l2, e2, n2⟩ := ih (step c e) hc1
    refine ⟨l1 ++ l2, ?_, ?_⟩
    · rw [run_cons, e2, e1, List.append_assoc]
    · intro call hcall
      rw [List.mem_append] at hcall
      rcases hcall with hcall | hcall
      · exact n1 call hcall
      · exact n2 call hcall

theorem cleanup_cancels (h : Nat) (c : Component) (e : Event) (hwf : c.WF)
    (hh : c.cleanup = some h) (he : e.triggersCleanup c = true) :
    (step c e).Cancelled h := by
  have hlt : h < c.nextHandle := hwf.2 h hh
  cases e with
  | render cid conv user =>
    simp only [Event.triggersCleanup, Bool.and_eq_true, Bool.or_eq_true, bne_iff_ne] at he
    obtain ⟨hm, hch⟩ := he
    simp only [step, hm, Bool.not_true, Bool.false_eq_true, ↓reduceIte, hch]
    refine (Cancelled_pollingEffect h _ (runCleanup_cancels h _ ?_ ?_)).1
    · exact hlt
    · exact hh
  | unmount =>
    simp only [Event.triggersCleanup] at he
    simp only [step, he, Bool.not_true, Bool.false_eq_true, ↓reduceIte]
    exact runCleanup_cancels h c hlt hh
  | tick _ => simp [Event.triggersCleanup] at he
  | fetchSettle _ _ => simp [Event.triggersCleanup] at he
  | input _ => simp [Event.triggersCleanup] at he
  | submit _ _ => simp [Event.triggersCleanup] at he
  | sendSettle _ _ => simp [Event.triggersCleanup] at he

/-- The claim C6: take any reachable `ChatWindow` whose polling effect holds the
interval `h`, and an event that makes the cleanup run (unmount, or a render that
changes `conversationId` or `user`).  After that event the interval `h` is not in
the timer table, and whatever happens next, the calls of `fetchMessages` made
after the cancellation include none triggered by `h`: their number is zero. -/
theorem cancelled_interval_never_fetches (cid : Option String) (conv : Option Conversation)
    (user : Option User) (es0 : List Event) (e : Event) (es : List Event) (h : Nat)
    (hh : (run (mount cid conv user) es0).cleanup = some h)
    (he : e.triggersCleanup (run (mount cid conv user) es0) = true) :
    (∀ iv ∈ (step (run (mount cid conv user) es0) e).intervals, iv.handle ≠ h) ∧
    ∃ later,
      (run (step (run (mount cid conv user) es0) e) es).fetchLog
        = (step (run (mount cid conv user) es0) e).fetchLog ++ later ∧
      (later.filter (fun call => call.timer == some h)).length = 0 := by
  have hwf := WF_run es0 _ (WF_mount cid conv user)
  have hc := cleanup_cancels h _ e hwf hh he
  refine ⟨hc.1, ?_⟩
  obtain ⟨later, h1, h2⟩ := Cancelled_run h es _ hc
  refine ⟨later, h1, ?_⟩
  rw [List.length_eq_zero, List.filter_eq_nil_iff]
  intro call hcall
  simpa using h2 call hcall


/-- A concrete instance of C6: the user switches from "X" to "Y"; later the browser
is asked to fire the old handle 0 and the new handle 1. -/
theorem cancelled_interval_never_fetches_witness :
    (run (mount (some "X") (some sampleConversation) (some sampleUser)) []).cleanup = some 0 ∧
    (run (step (run (mount (some "X") (some sampleConversation) (some sampleUser)) [])
        (.render (some "Y") (some sampleOther) (some sampleUser)))
        [.tick 0, .tick 1, .tick 0]).fetchLog
      = [⟨"X", none⟩, ⟨"Y", none⟩, ⟨"Y", some 1⟩] ∧
    ∃ later,
      (run (step (run (mount (some "X") (some sampleConversation) (some sampleUser)) [])
          (.render (some "Y") (some sampleOther) (some sampleUser)))
          [.tick 0, .tick 1, .tick 0]).fetchLog
        = (step (run (mount (some "X") (some sampleConversation) (some sampleUser)) [])
            (.render (some "Y") (some sampleOther) (some sampleUser))).fetchLog ++ later ∧
      (later.filter (fun call => call.timer == some 0)).length = 0 :=
  ⟨by decide, by decide,
   (cancelled_interval_never_fetches (some "X") (some sampleConversation) (some sampleUser) []
      (.render (some "Y") (some sampleOther) (some sampleUser)) [.tick 0, .tick 1, .tick 0] 0
      (by decide) (by decide)).2⟩

theorem fetchMessages_truthy (cid : Option String) (user : Option User) (timer : Option Nat)
    (c : Component) (hid : truthyId cid = true) (hu : user.isSome = true) :
    (fetchMessages cid user timer c).pendingFetches.length = c.pendingFetches.length + 1 := by
  cases cid with
  | none => simp [truthyId] at hid
  | some t =>
    cases user with
    | none => simp at hu
    | some u =>
      have hne : t ≠ "" := by simpa [truthyId] using hid
      simp [fetchMessages, hne]

/-- Against the claim C7 as stated: on the window mounted on "X" the initial fetch is
unresolved when the interval fires; the tick is not skipped and two refreshes are
outstanding. -/
theorem tick_overlaps_unresolved_fetch :
    sampleMounted.pendingFetches = [⟨"X", none⟩] ∧
    (step sampleMounted (.tick 0)).pendingFetches = [⟨"X", none⟩, ⟨"X", some 0⟩] ∧
    ¬ (step sampleMounted (.tick 0)).pendingFetches.length ≤ 1 := by
  decide

/-- The claim C7 as amended: in every reachable `ChatWindow`, a tick of an active
interval calls `fetchMessages` whether or not earlier calls are unresolved: the
number of outstanding refreshes grows by one. -/
theorem tick_always_fetches (cid : Option String) (conv : Option Conversation)
    (user : Option User) (es : List Event) (h : Nat)
    (hact : ∃ iv ∈ (run (mount cid conv user) es).intervals, iv.handle = h) :
    (step (run (mount cid conv user) es) (.tick h)).pendingFetches.length
      = (run (mount cid conv user) es).pendingFetches.length + 1 := by
  have hwf := WF_run es _ (WF_mount cid conv user)
  simp only [step]
  split
  · rename_i iv hfind
    obtain ⟨_, hid, hu⟩ := hwf.1 iv (List.mem_of_find?_eq_some hfind)
    exact fetchMessages_truthy _ _ _ _ hid hu
  · rename_i hfind
    obtain ⟨iv, hiv, hh⟩ := hact
    have := List.find?_eq_none.mp hfind iv hiv
    simp [hh] at this

/-- A concrete instance of the amended C7: two ticks while nothing has resolved. -/
theorem tick_always_fetches_witness :
    (∃ iv ∈ (run (mount (some "X") (some sampleConversation) (some sampleUser))
        [.tick 0]).intervals, iv.handle = 0) ∧
    (step (run (mount (some "X") (some sampleConversation) (some sampleUser)) [.tick 0])
        (.tick 0)).pendingFetches.length = 2 + 1 :=
  ⟨⟨⟨0, some "X", some sampleUser⟩, by decide, rfl⟩,
   tick_always_fetches (some "X") (some sampleConversation) (some sampleUser) [.tick 0] 0
     ⟨⟨0, some "X", some sampleUser⟩, by decide, rfl⟩⟩

/-! ## Theorems: applying a polled page -/

/-- Against the claim C8 as stated: the thread of `samplePending` holds the provisional
entry of the send of "hello" by "A"; the polled page holds only a message of "B"
with content "hi", so no counterpart; after the page is applied no entry has the
placeholder id. -/
theorem poll_drops_provisional_entry :
    (∃ m ∈ samplePending.view.messages, m.message_id = "1700000000000") ∧
    samplePending.pendingSends.map (fun call => call.tempId) = ["1700000000000"] ∧
    (∀ m ∈ [sampleOld], ¬ (m.sender_id = "A" ∧ m.content = "hello")) ∧
    (∀ m ∈ (step samplePending (.fetchSettle 0 (some (some [sampleOld])))).view.messages,
      m.message_id ≠ "1700000000000") := by
  decide

/-- The claim C8 as amended: the success branch of `fetchMessages` replaces the thread
by the polled page.  For a thread holding a provisional entry and a page with no
entry under the placeholder id, the thread after the page is applied is the page
and holds no entry with the placeholder id: the provisional entry is dropped. -/
theorem poll_replaces_thread (s : ChatState) (data : Option (List Message)) (tempId : String)
    (hprov : ∃ m ∈ s.messages, m.message_id = tempId)
    (hpage : ∀ m ∈ data.getD [], m.message_id ≠ tempId) :
    (fetchMessages.onSuccess data s).messages = data.getD [] ∧
    (∀ m ∈ (fetchMessages.onSuccess data s).messages, m.message_id ≠ tempId) ∧
    (fetchMessages.onSuccess data s).messages ≠ s.messages := by
  have h1 : (fetchMessages.onSuccess data s).messages = data.getD [] := rfl
  refine ⟨h1, ?_, ?_⟩
  · rw [h1]
    exact hpage
  · intro heq
    obtain ⟨m, hm, hid⟩ := hprov
    rw [← heq, h1] at hm
    exact hpage m hm hid

/-- A concrete instance of the amended C8. -/
theorem poll_replaces_thread_witness :
    (fetchMessages.onSuccess (some [sampleOld]) samplePending.view).messages = [sampleOld] :=
  (poll_replaces_thread samplePending.view (some [sampleOld]) "1700000000000"
    ⟨⟨"1700000000000", "A", "hello", "t1", "sent"⟩, by decide, rfl⟩ (by decide)).1

/-- The claim C9: applying a polled page through the success branch of `fetchMessages`
is idempotent: a second application of the same page changes nothing, in the
thread and in the other state cells. -/
theorem poll_idempotent (s : ChatState) (data : Option (List Message)) :
    fetchMessages.onSuccess data (fetchMessages.onSuccess data s)
      = fetchMessages.onSuccess data s ∧
    (fetchMessages.onSuccess data (fetchMessages.onSuccess data s)).messages
      = (fetchMessages.onSuccess data s).messages := by
  constructor <;> rfl

/-- Against the claim C10 as stated: the polled page holds an entry whose id equals
the placeholder id.  Poll first and the reconciliation swaps that entry for the
server response; reconcile first and the page stays as polled. -/
theorem poll_and_swap_do_not_commute :
    (handleSend.onSuccess "1700000000000" sampleReply
      (fetchMessages.onSuccess (some [⟨"1700000000000", "B", "hi", "t0", "sent"⟩])
        samplePending.view)).messages = [sampleReply] ∧
    (fetchMessages.onSuccess (some [⟨"1700000000000", "B", "hi", "t0", "sent"⟩])
      (handleSend.onSuccess "1700000000000" sampleReply samplePending.view)).messages
      = [⟨"1700000000000", "B", "hi", "t0", "sent"⟩] ∧
    handleSend.onSuccess "1700000000000" sampleReply
      (fetchMessages.onSuccess (some [⟨"1700000000000", "B", "hi", "t0", "sent"⟩])
        samplePending.view)
    ≠ fetchMessages.onSuccess (some [⟨"1700000000000", "B", "hi", "t0", "sent"⟩])
      (handleSend.onSuccess "1700000000000" sampleReply samplePending.view) := by
  decide

/-- The claim C10 as amended: for every state, every server response and every polled
page that holds no entry with the placeholder id, applying the poll response and
then the send-success reconciliation gives the same state (thread, input, flags)
as the reconciliation followed by the poll response: in both orders the thread
is the page. -/
theorem poll_and_swap_commute (s : ChatState) (data : Option (List Message)) (tempId : String)
    (reply : Message) (hpage : ∀ m ∈ data.getD [], m.message_id ≠ tempId) :
    handleSend.onSuccess tempId reply (fetchMessages.onSuccess data s)
      = fetchMessages.onSuccess data (handleSend.onSuccess tempId reply s) ∧
    (handleSend.onSuccess tempId reply (fetchMessages.onSuccess data s)).messages
      = data.getD [] := by
  have h1 : handleSend.swap tempId reply (data.getD []) = data.getD [] := by
    unfold handleSend.swap
    conv_rhs => rw [← List.map_id (data.getD [])]
    apply List.map_congr_left
    intro m hm
    simp [hpage m hm]
  constructor
  · simp only [handleSend.onSuccess, fetchMessages.onSuccess, h1]
  · simp only [handleSend.onSuccess, fetchMessages.onSuccess, h1]

/-- A concrete instance of the amended C10: the page already carries the stored
message of the send that is in flight. -/
theorem poll_and_swap_commute_witness :
    (∀ m ∈ (some [sampleOld, sampleReply]).getD [], m.message_id ≠ "1700000000000") ∧
    handleSend.onSuccess "1700000000000" sampleReply
        (fetchMessages.onSuccess (some [sampleOld, sampleReply]) samplePending.view)
      = fetchMessages.onSuccess (some [sampleOld, sampleReply])
        (handleSend.onSuccess "1700000000000" sampleReply samplePending.view) :=
  ⟨by decide,
   (poll_and_swap_commute samplePending.view (some [sampleOld, sampleReply]) "1700000000000"
      sampleReply (by decide)).1⟩

/-! ## Theorems: failed fetches and conversation switches -/

/-- The claim C11: when the GET of `fetchMessages` is rejected, the messages state is
exactly what it was before the call settled (it is not cleared) and the error
flag is set to a non-null value, the text "Failed to load messages.". -/
theorem failed_fetch_keeps_thread (c : Component) (k : Nat) (call : FetchCall)
    (hm : c.mounted = true) (hk : c.pendingFetches[k]? = some call) :
    (step c (.fetchSettle k none)).view.messages = c.view.messages ∧
    (step c (.fetchSettle k none)).view.error = some "Failed to load messages." ∧
    (step c (.fetchSettle k none)).view.error ≠ none := by
  have h : (step c (.fetchSettle k none)).view = fetchMessages.onFailure c.view := by
    simp [step, hk, hm]
  rw [h]
  simp [fetchMessages.onFailure]

/-- A concrete instance of C11: a poll of the loaded window on "X" is rejected. -/
theorem failed_fetch_keeps_thread_witness :
    (step (step sampleLoaded (.tick 0)) (.fetchSettle 0 none)).view.messages = [sampleOld] ∧
    (step (step sampleLoaded (.tick 0)) (.fetchSettle 0 none)).view.error
      = some "Failed to load messages." :=
  ⟨(failed_fetch_keeps_thread (step sampleLoaded (.tick 0)) 0 ⟨"X", some 0⟩
      (by decide) (by decide)).1,
   (failed_fetch_keeps_thread (step sampleLoaded (.tick 0)) 0 ⟨"X", some 0⟩
      (by decide) (by decide)).2.1⟩

theorem runCleanup_view (c : Component) : (runCleanup c).view = c.view := by
  unfold runCleanup
  split <;> rfl

theorem pollingEffect_messages (c : Component) :
    (pollingEffect c).view.messages = c.view.messages := by
  unfold pollingEffect
  split
  · rfl
  · simp only []
    rw [(fetchMessages_frame _ _ _ _).1]

theorem render_messages (c : Component) (cid : Option String) (conv : Option Conversation)
    (user : Option User) :
    (step c (.render cid conv user)).view.messages = c.view.messages := by
  simp only [step]
  split
  · rfl
  · split
    · rw [pollingEffect_messages, runCleanup_view]
    · rfl

theorem failed_fetch_messages (c : Component) (k : Nat) :
    (step c (.fetchSettle k none)).view.messages = c.view.messages := by
  simp only [step]
  split
  · rfl
  · split <;> rfl

/-- Against the claim C12 as stated: the window holds the thread of "X"; after the
switch to "Y" the messages state is still that thread, and it still is after the
first GET for "Y" was rejected, now with `loading` false so that it is shown. -/
theorem switch_keeps_previous_thread :
    sampleLoaded.conversationId = some "X" ∧
    sampleLoaded.view.messages = [sampleOld] ∧
    (step sampleLoaded (.render (some "Y") (some sampleOther) (some sampleUser))).conversationId
      = some "Y" ∧
    (step sampleLoaded (.render (some "Y") (some sampleOther) (some sampleUser))).view.messages
      = [sampleOld] ∧
    (run sampleLoaded sampleFailedSwitch).view
      = { messages := [sampleOld], newMessage := "", loading := false,
          error := some "Failed to load messages." } := by
  decide

theorem fetchSettle_failure_view (c : Component) (k : Nat) (call : FetchCall)
    (hm : c.mounted = true) (hk : c.pendingFetches[k]? = some call) :
    (step c (.fetchSettle k none)).view = fetchMessages.onFailure c.view := by
  simp [step, hk, hm]

theorem runCleanup_rest (c : Component) :
    (runCleanup c).pendingFetches = c.pendingFetches ∧ (runCleanup c).mounted = c.mounted := by
  unfold runCleanup
  split <;> exact ⟨rfl, rfl⟩

theorem pollingEffect_truthy (d : Component) (cid : String) (u : User)
    (hc : d.conversationId = some cid) (hne : cid ≠ "") (hu : d.user = some u) :
    (pollingEffect d).view = { d.view with loading := true } ∧
    (pollingEffect d).pendingFetches = d.pendingFetches ++ [⟨cid, none⟩] ∧
    (pollingEffect d).mounted = d.mounted ∧
    (pollingEffect d).conversationId = some cid := by
  simp [pollingEffect, hc, hu, truthyId, hne, fetchMessages]

/-- The claim C12 as amended: on a mounted component a change of the selected
conversation to a non-empty id, with a user present, leaves the messages state as
it is: right after the switch it still holds the thread of the previous
conversation, with `loading` set to true and the first GET for the new
conversation issued; when that GET is rejected the messages state still holds the
previous thread, now with `loading` false and the error flag reading
"Failed to load messages.". -/
theorem switch_preserves_messages (c : Component) (cid : String)
    (conv : Option Conversation) (u : User)
    (hm : c.mounted = true) (hcid : cid ≠ "") (hchange : c.conversationId ≠ some cid) :
    (step c (.render (some cid) conv (some u))).conversationId = some cid ∧
    (step c (.render (some cid) conv (some u))).view.messages = c.view.messages ∧
    (step c (.render (some cid) conv (some u))).view.loading = true ∧
    (step c (.render (some cid) conv (some u))).pendingFetches
      = c.pendingFetches ++ [⟨cid, none⟩] ∧
    (step (step c (.render (some cid) conv (some u)))
        (.fetchSettle c.pendingFetches.length none)).view.messages = c.view.messages ∧
    (step (step c (.render (some cid) conv (some u)))
        (.fetchSettle c.pendingFetches.length none)).view.loading = false ∧
    (step (step c (.render (some cid) conv (some u)))
        (.fetchSettle c.pendingFetches.length none)).view.error
      = some "Failed to load messages." := by
  have hstep : step c (.render (some cid) conv (some u))
      = pollingEffect (runCleanup
          { c with conversationId := some cid, conversation := conv, user := some u }) := by
    have hne : (some cid : Option String) ≠ c.conversationId := fun h => hchange h.symm
    simp [step, hm, hne]
  obtain ⟨_, _, _, _, f5, f6, _⟩ := runCleanup_frame
    { c with conversationId := some cid, conversation := conv, user := some u }
  obtain ⟨g1, g2⟩ := runCleanup_rest
    { c with conversationId := some cid, conversation := conv, user := some u }
  have gv := runCleanup_view
    { c with conversationId := some cid, conversation := conv, user := some u }
  obtain ⟨p1, p2, p3, hcidst⟩ := pollingEffect_truthy _ cid u f5 hcid f6
  rw [gv] at p1
  rw [g1] at p2
  rw [g2] at p3
  rw [← hstep] at p1 p2 p3 hcidst
  have hk : (step c (.render (some cid) conv (some u))).pendingFetches[c.pendingFetches.length]?
      = some ⟨cid, none⟩ := by
    rw [p2]
    simp
  have hm2 : (step c (.render (some cid) conv (some u))).mounted = true := by
    rw [p3]
    exact hm
  have hfail : (step (step c (.render (some cid) conv (some u)))
      (.fetchSettle c.pendingFetches.length none)).view
      = fetchMessages.onFailure (step c (.render (some cid) conv (some u))).view :=
    fetchSettle_failure_view _ _ ⟨cid, none⟩ hm2 hk
  refine ⟨hcidst, ?_, ?_, p2, ?_, ?_, ?_⟩
  · rw [p1]
  · rw [p1]
  · rw [hfail, p1]
    rfl
  · rw [hfail]
    rfl
  · rw [hfail]
    rfl

/-- A concrete instance of the amended C12: the loaded window on "X" is switched to
"Y" and the first GET for "Y" is rejected. -/
theorem switch_preserves_messages_witness :
    sampleLoaded.view.messages = [sampleOld] ∧
    (step sampleLoaded (.render (some "Y") (some sampleOther) (some sampleUser))).view.messages
      = sampleLoaded.view.messages ∧
    (step (step sampleLoaded (.render (some "Y") (some sampleOther) (some sampleUser)))
        (.fetchSettle sampleLoaded.pendingFetches.length none)).view.messages
      = sampleLoaded.view.messages ∧
    (step (step sampleLoaded (.render (some "Y") (some sampleOther) (some sampleUser)))
        (.fetchSettle sampleLoaded.pendingFetches.length none)).view.loading = false :=
  ⟨by decide,
   (switch_preserves_messages sampleLoaded "Y" (some sampleOther) sampleUser
      (by decide) (by decide) (by decide)).2.1,
   (switch_preserves_messages sampleLoaded "Y" (some sampleOther) sampleUser
      (by decide) (by decide) (by decide)).2.2.2.2.1,
   (switch_preserves_messages sampleLoaded "Y" (some sampleOther) sampleUser
      (by decide) (by decide) (by decide)).2.2.2.2.2.1⟩

/-! ## Theorems: the counterparty lookups -/

theorem find_first_other (pre : List String) (x : String) (post : List String) (self : String)
    (hpre : ∀ id ∈ pre, id = self) (hx : x ≠ self) :
    (pre ++ x :: post).find? (fun id => id != self) = some x := by
  induction pre with
  | nil => simp [hx]
  | cons a pre ih =>
    have ha : a = self := hpre a (by simp)
    have := ih (fun id hid => hpre id (by simp [hid]))
    simp [ha, this]

theorem find_none_of_all_self (ids : List String) (self : String)
    (hall : ∀ id ∈ ids, id = self) :
    ids.find? (fun id => id != self) = none := by
  rw [List.find?_eq_none]
  intro id hid
  simp [hall id hid]

/-- The claim C13: for distinct user ids A and B with B non-empty, in either order in
`participant_ids`, every counterparty lookup with current user A resolves to B:
the receiver of `handleSend`, the header lookup of `ChatWindow` and the lookups of
`ConversationList`, whose displayed name is then "User " followed by the first
eight code units of B. -/
theorem lookup_resolves_counterparty (A B : String) (hAB : A ≠ B) (hB : B ≠ "") :
    handleSend.receiverId (some ⟨some [A, B]⟩) ⟨A⟩ = B ∧
    handleSend.receiverId (some ⟨some [B, A]⟩) ⟨A⟩ = B ∧
    ChatWindow.otherParticipant (some ⟨some [A, B]⟩) ⟨A⟩ = some B ∧
    ChatWindow.otherParticipant (some ⟨some [B, A]⟩) ⟨A⟩ = some B ∧
    ConversationList.otherParticipantId ⟨some [A, B]⟩ (some ⟨A⟩) = some B ∧
    ConversationList.otherParticipantId ⟨some [B, A]⟩ (some ⟨A⟩) = some B ∧
    ConversationList.participantName ⟨some [A, B]⟩ (some ⟨A⟩)
      = toUtf16 "User " ++ (toUtf16 B).take 8 ∧
    getOtherParticipant (some ⟨A⟩) (some [A, B]) = toUtf16 "User " ++ (toUtf16 B).take 8 ∧
    getOtherParticipant (some ⟨A⟩) (some [B, A]) = toUtf16 "User " ++ (toUtf16 B).take 8 := by
  have hBA : B ≠ A := fun h => hAB h.symm
  have h1 : [A, B].find? (fun id => id != A) = some B := by simp [hBA]
  have h2 : [B, A].find? (fun id => id != A) = some B := by simp [hBA]
  have h3 : [A, B].find? (fun id => some id != (some (⟨A⟩ : User)).map (·.user_id)) = some B := by
    simp [hBA]
  have h4 : [B, A].find? (fun id => some id != (some (⟨A⟩ : User)).map (·.user_id)) = some B := by
    simp [hBA]
  refine ⟨?_, ?_, ?_, ?_, ?_, ?_, ?_, ?_, ?_⟩
  · simp [handleSend.receiverId, h1]
  · simp [handleSend.receiverId, h2]
  · simp [ChatWindow.otherParticipant, h1]
  · simp [ChatWindow.otherParticipant, h2]
  · simp only [ConversationList.otherParticipantId, Option.bind, h3]
  · simp only [ConversationList.otherParticipantId, Option.bind, h4]
  · simp only [ConversationList.participantName, ConversationList.otherParticipantId,
      Option.bind, h3]
    simp [hB, jsSubstring0]
  · simp only [getOtherParticipant, h1]
    simp [hB, jsSubstring0]
  · simp only [getOtherParticipant, h2]
    simp [hB, jsSubstring0]

/-- A concrete instance of C13: users "A" and "B", and a counterparty id whose eighth
code unit is the high surrogate of a character above U+FFFF, which the displayed
name keeps. -/
theorem lookup_resolves_counterparty_witness :
    handleSend.receiverId (some ⟨some ["A", "B"]⟩) ⟨"A"⟩ = "B" ∧
    getOtherParticipant (some ⟨"A"⟩) (some ["B", "A"]) = toUtf16 "User B" ∧
    handleSend.receiverId (some ⟨some ["A", "1234567😀"]⟩) ⟨"A"⟩ = "1234567😀" ∧
    getOtherParticipant (some ⟨"A"⟩) (some ["A", "1234567😀"])
      = toUtf16 "User 1234567" ++ [0xD83D] :=
  ⟨(lookup_resolves_counterparty "A" "B" (by decide) (by decide)).1,
   (lookup_resolves_counterparty "A" "B" (by decide) (by decide)).2.2.2.2.2.2.2.2,
   (lookup_resolves_counterparty "A" "1234567😀" (by decide) (by decide)).1,
   (lookup_resolves_counterparty "A" "1234567😀" (by decide) (by decide)).2.2.2.2.2.2.2.1⟩

/-- Against the claim C14 as stated: with current user "C" outside the participants
"A" and "B" the lookups return "A", with three participants and with a single
foreign participant they return the first id that is not the user's; none of
these is the placeholder. -/
theorem lookup_accepts_malformed_participants :
    handleSend.receiverId (some ⟨some ["A", "B"]⟩) ⟨"C"⟩ = "A" ∧
    ConversationList.otherParticipantId ⟨some ["A", "B"]⟩ (some ⟨"C"⟩) = some "A" ∧
    ConversationList.participantName ⟨some ["A", "B"]⟩ (some ⟨"C"⟩) = toUtf16 "User A" ∧
    handleSend.receiverId (some ⟨some ["A", "B", "C"]⟩) ⟨"A"⟩ = "B" ∧
    handleSend.receiverId (some ⟨some ["B"]⟩) ⟨"A"⟩ = "B" ∧
    ConversationList.participantName ⟨some ["B"]⟩ (some ⟨"A"⟩) = toUtf16 "User B" := by
  decide

/-- The claim C14 as amended: the lookups do not check the shape of `participant_ids`.
They return the placeholder (the empty receiver id, no id, the name "Unknown")
when `participant_ids` is missing or holds only ids equal to the current user's
id; whenever some id differs from the current user's id they return the first
such id, whether or not the user is among the participants and whatever their
number. -/
theorem lookup_placeholder_cases (pre : List String) (x : String) (post : List String)
    (u : User) (hpre : ∀ id ∈ pre, id = u.user_id) (hx : x ≠ u.user_id) :
    handleSend.receiverId (some ⟨some pre⟩) u = "" ∧
    handleSend.receiverId (some ⟨none⟩) u = "" ∧
    handleSend.receiverId none u = "" ∧
    ConversationList.otherParticipantId ⟨some pre⟩ (some u) = none ∧
    ConversationList.otherParticipantId ⟨none⟩ (some u) = none ∧
    ConversationList.participantName ⟨some pre⟩ (some u) = toUtf16 "Unknown" ∧
    getOtherParticipant (some u) (some pre) = toUtf16 "Unknown" ∧
    getOtherParticipant (some u) none = toUtf16 "Unknown" ∧
    handleSend.receiverId (some ⟨some (pre ++ x :: post)⟩) u = x ∧
    ConversationList.otherParticipantId ⟨some (pre ++ x :: post)⟩ (some u) = some x := by
  have h1 := find_none_of_all_self pre u.user_id hpre
  have h2 := find_first_other pre x post u.user_id hpre hx
  have h3 : pre.find? (fun id => some id != (some u).map (·.user_id)) = none := by
    simpa using h1
  have h4 : (pre ++ x :: post).find? (fun id => some id != (some u).map (·.user_id))
      = some x := by
    simpa using h2
  refine ⟨?_, ?_, ?_, ?_, ?_, ?_, ?_, ?_, ?_, ?_⟩
  · simp [handleSend.receiverId, h1]
  · simp [handleSend.receiverId]
  · simp [handleSend.receiverId]
  · simp only [ConversationList.otherParticipantId, Option.bind, h3]
  · simp [ConversationList.otherParticipantId]
  · simp only [ConversationList.participantName, ConversationList.otherParticipantId,
      Option.bind, h3]
  · simp only [getOtherParticipant, h1]
  · simp [getOtherParticipant]
  · simp [handleSend.receiverId, h2]
  · simp only [ConversationList.otherParticipantId, Option.bind, h4]

/-- A concrete instance of the amended C14: user "A", the participants "A", "C", "B". -/
theorem lookup_placeholder_cases_witness :
    handleSend.receiverId (some ⟨some ["A"]⟩) ⟨"A"⟩ = "" ∧
    handleSend.receiverId (some ⟨some (["A"] ++ "C" :: ["B"])⟩) ⟨"A"⟩ = "C" :=
  ⟨(lookup_placeholder_cases ["A"] "C" ["B"] ⟨"A"⟩ (by decide) (by decide)).1,
   (lookup_placeholder_cases ["A"] "C" ["B"] ⟨"A"⟩ (by decide) (by decide)).2.2.2.2.2.2.2.2.1⟩

/-! ## Theorems: what `handleSend` builds and sends -/

theorem submit_accepted_eq (c : Component) (now : Nat) (iso : String) (u : User)
    (hm : c.mounted = true) (hu : c.user = some u)
    (hacc : handleSend.accepted c.conversationId c.user c.view = true) :
    step c (.submit now iso) =
      { c with
        view := handleSend.optimistic (handleSend.tempMessage now iso u c.view) c.view
        pendingSends := c.pendingSends ++
          [⟨toString now, handleSend.payload c.conversation u c.view⟩]
        sendLog := c.sendLog ++ [handleSend.payload c.conversation u c.view] } := by
  simp only [step, hm, Bool.not_true, Bool.false_eq_true, ↓reduceIte, handleSend, hu]
  rw [hu] at hacc
  simp [hacc, handleSend.tempMessage]

/-- Against the claim C15 as stated: the conversation record has no `participant_ids`,
so no counterparty is resolved; the submit of "hello" still issues the POST, with
an empty `receiver_id`, and appends the provisional entry. -/
theorem send_without_counterparty_posts :
    handleSend.receiverId sampleNoCounterparty.conversation sampleUser = "" ∧
    sampleNoCounterparty.sendLog = [] ∧
    (step sampleNoCounterparty (.submit 1700000000000 "t1")).sendLog = [⟨"", "hello"⟩] ∧
    (step sampleNoCounterparty (.submit 1700000000000 "t1")).view.messages
      = [sampleOld, ⟨"1700000000000", "A", "hello", "t1", "sent"⟩] := by
  decide

/-- The claim C15 as amended: `handleSend` does not check the counterparty.  For every
conversation whose `participant_ids` is missing, empty or holds only the current
user's id, an accepted submit appends the provisional entry and issues one POST
whose `receiver_id` is the empty string. -/
theorem send_without_counterparty (c : Component) (now : Nat) (iso : String) (u : User)
    (hm : c.mounted = true) (hu : c.user = some u)
    (hacc : handleSend.accepted c.conversationId c.user c.view = true)
    (hnone : ∀ id ∈ (c.conversation.bind (·.participant_ids)).getD [], id = u.user_id) :
    (step c (.submit now iso)).sendLog
      = c.sendLog ++ [⟨"", jsTrim c.view.newMessage⟩] ∧
    (step c (.submit now iso)).view.messages
      = c.view.messages ++ [handleSend.tempMessage now iso u c.view] ∧
    (step c (.submit now iso)).pendingSends.length = c.pendingSends.length + 1 := by
  rw [submit_accepted_eq c now iso u hm hu hacc]
  have hr : handleSend.receiverId c.conversation u = "" := by
    simp only [handleSend.receiverId]
    rw [find_none_of_all_self _ u.user_id hnone]
    rfl
  refine ⟨?_, ?_, ?_⟩
  · simp [handleSend.payload, hr]
  · simp [handleSend.optimistic, handleSend.append]
  · simp

/-- A concrete instance of the amended C15: the record without `participant_ids`. -/
theorem send_without_counterparty_witness :
    (step sampleNoCounterparty (.submit 1700000000000 "t1")).sendLog
      = sampleNoCounterparty.sendLog ++ [⟨"", jsTrim sampleNoCounterparty.view.newMessage⟩] :=
  (send_without_counterparty sampleNoCounterparty 1700000000000 "t1" sampleUser
    (by decide) (by decide) (by decide) (by decide)).1

/-- The two sites that do keep a message from its own sender: `handleContactSeller`
stops at the own-post guard, without a POST, whenever `item.user_id` equals the
current user's id, so any payload it posts has another receiver; and for a
current user with a non-empty id the payload built by `handleSend` never has
that id as `receiver_id`. -/
theorem never_sends_to_self (user : User) (item : Item) (conversation : Option Conversation)
    (s : ChatState) (hid : user.user_id ≠ "") :
    (item.user_id = user.user_id →
      handleContactSeller (some user) (some item) = .ownPost) ∧
    (∀ p, handleContactSeller (some user) (some item) = .posted p →
      p.receiver_id ≠ user.user_id) ∧
    (handleSend.payload conversation user s).receiver_id ≠ user.user_id := by
  refine ⟨?_, ?_, ?_⟩
  · intro h
    simp [handleContactSeller, h]
  · intro p hp
    simp only [handleContactSeller] at hp
    split at hp
    · cases hp
    · rename_i hne
      cases hp
      exact hne
  · show handleSend.receiverId conversation user ≠ user.user_id
    simp only [handleSend.receiverId]
    cases hf : ((conversation.bind (·.participant_ids)).getD []).find?
        (fun id => id != user.user_id) with
    | none =>
      intro h
      exact hid h.symm
    | some x =>
      have := List.find?_some hf
      simpa using this

/-- User "A" looks at an own item and at a conversation that lists only "A". -/
theorem never_sends_to_self_witness :
    handleContactSeller (some sampleUser) (some ⟨"item-1", "A", "lost", "keys"⟩) = .ownPost ∧
    (handleSend.payload (some ⟨some ["A", "A"]⟩) sampleUser sampleTyped.view).receiver_id
      ≠ sampleUser.user_id :=
  ⟨(never_sends_to_self sampleUser ⟨"item-1", "A", "lost", "keys"⟩ (some ⟨some ["A", "A"]⟩)
      sampleTyped.view (by decide)).1 rfl,
   (never_sends_to_self sampleUser ⟨"item-1", "A", "lost", "keys"⟩ (some ⟨some ["A", "A"]⟩)
      sampleTyped.view (by decide)).2.2⟩

theorem claim_submit_receiver (user : User) (claimDetails : String) (item : Item)
    (hd : jsTrim claimDetails ≠ "") :
    ∃ payload, handleClaimSubmit (some user) claimDetails (some item) = .posted payload ∧
      payload.receiver_id = item.user_id := by
  simp [handleClaimSubmit, hd]

/-- The claim C16 at the own item of user "A": `handleContactSeller` stops at its
own-post guard, but `handleClaimSubmit`, which has no such guard, posts a message
whose `receiver_id` is the sender's own id. -/
theorem claim_submit_posts_to_self :
    sampleOwnItem.user_id = sampleUser.user_id ∧
    handleContactSeller (some sampleUser) (some sampleOwnItem) = .ownPost ∧
    handleClaimSubmit (some sampleUser) "It has my name inside" (some sampleOwnItem)
      = .posted
          { receiver_id := "A"
            content := "I'd like to claim this lost \"keys\". Details: It has my name inside"
            item_id := "item-1" } := by
  decide

/-- Against the claim C17 as stated: the provisional entry that the submit of "hello"
puts in the thread has status "sent", not "pending". -/
theorem provisional_status_is_not_pending :
    (step sampleTyped (.submit 1700000000000 "t1")).view.messages
      = [sampleOld, ⟨"1700000000000", "A", "hello", "t1", "sent"⟩] ∧
    (handleSend.tempMessage 1700000000000 "t1" sampleUser sampleTyped.view).status = "sent" ∧
    (handleSend.tempMessage 1700000000000 "t1" sampleUser sampleTyped.view).status
      ≠ "pending" := by
  decide

/-- The claim C17 as amended: the provisional message that `handleSend` fabricates and
inserts before the transport call has status "sent". -/
theorem provisional_status_is_sent (now : Nat) (iso : String) (user : User) (s : ChatState) :
    (handleSend.tempMessage now iso user s).status = "sent" ∧
    ∀ m ∈ (handleSend.optimistic (handleSend.tempMessage now iso user s) s).messages,
      m ∈ s.messages ∨ m.status = "sent" := by
  refine ⟨rfl, ?_⟩
  intro m hm
  simp only [handleSend.optimistic, handleSend.append, List.mem_append,
    List.mem_singleton] at hm
  rcases hm with hm | hm
  · exact Or.inl hm
  · right
    rw [hm]
    rfl

/-- The claim C18: for every thread and every accepted submit on a mounted component,
right after the optimistic insert the thread is the earlier thread followed by
exactly one new last entry; its `sender_id` is the current user's id and its
content is the trimmed input, which is also the content of the payload handed to
the transport; the earlier entries keep their place and value. -/
theorem optimistic_insert_appends (c : Component) (now : Nat) (iso : String) (u : User)
    (hm : c.mounted = true) (hu : c.user = some u)
    (hacc : handleSend.accepted c.conversationId c.user c.view = true) :
    ∃ entry payload,
      (step c (.submit now iso)).view.messages = c.view.messages ++ [entry] ∧
      (step c (.submit now iso)).view.messages.length = c.view.messages.length + 1 ∧
      entry.sender_id = u.user_id ∧
      entry.content = jsTrim c.view.newMessage ∧
      (step c (.submit now iso)).sendLog = c.sendLog ++ [payload] ∧
      payload.content = entry.content ∧
      (∀ (i : Nat) (m : Message), c.view.messages[i]? = some m →
        (step c (.submit now iso)).view.messages[i]? = some m) := by
  refine ⟨handleSend.tempMessage now iso u c.view, handleSend.payload c.conversation u c.view,
    ?_⟩
  rw [submit_accepted_eq c now iso u hm hu hacc]
  refine ⟨rfl, ?_, rfl, rfl, rfl, rfl, ?_⟩
  · simp [handleSend.optimistic, handleSend.append]
  · intro i m hi
    simp only [handleSend.optimistic, handleSend.append]
    have hlt : i < c.view.messages.length := by
      rcases Nat.lt_or_ge i c.view.messages.length with h | h
      · exact h
      · rw [List.getElem?_eq_none h] at hi
        cases hi
    rw [List.getElem?_append_left hlt]
    exact hi

/-- A concrete instance of C18: " hello " is submitted after `sampleOld`. -/
theorem optimistic_insert_appends_witness :
    ∃ entry payload,
      (step sampleTyped (.submit 1700000000000 "t1")).view.messages
        = sampleTyped.view.messages ++ [entry] ∧
      (step sampleTyped (.submit 1700000000000 "t1")).view.messages.length
        = sampleTyped.view.messages.length + 1 ∧
      entry.sender_id = sampleUser.user_id ∧
      entry.content = jsTrim sampleTyped.view.newMessage ∧
      (step sampleTyped (.submit 1700000000000 "t1")).sendLog
        = sampleTyped.sendLog ++ [payload] ∧
      payload.content = entry.content ∧
      (∀ (i : Nat) (m : Message), sampleTyped.view.messages[i]? = some m →
        (step sampleTyped (.submit 1700000000000 "t1")).view.messages[i]? = some m) :=
  optimistic_insert_appends sampleTyped 1700000000000 "t1" sampleUser
    (by decide) (by decide) (by decide)

/-! ## Theorems: order of the thread and placeholder ids -/

/-- Against the claim C19 as stated: the thread holds one message stamped at second 5
and is sorted; the clock of the client reads second 3 at the submit, and the
thread with the provisional entry appended is not sorted by `created_at`. -/
theorem append_can_break_order :
    sortedByCreatedAt sampleStampedTyped.view.messages ∧
    (step sampleStampedTyped (.submit 1700000000000 "2024-01-01T00:00:03.000Z")).view.messages
      = [sampleStamped,
         ⟨"1700000000000", "A", "hello", "2024-01-01T00:00:03.000Z", "sent"⟩] ∧
    ¬ sortedByCreatedAt
      (step sampleStampedTyped
        (.submit 1700000000000 "2024-01-01T00:00:03.000Z")).view.messages := by
  decide

/-- The claim C19 as amended: `handleSend` compares no timestamps.  When the thread is
sorted by `created_at`, holds no entry with the placeholder id, and none of its
entries is later than the provisional entry, the thread is still sorted after the
provisional entry is appended; when moreover none of its entries is later than
the server-returned message, it is still sorted after the success swap. -/
theorem order_kept_when_stamps_agree (prev : List Message) (tempMessage data : Message)
    (hsorted : sortedByCreatedAt prev)
    (hfresh : ∀ m ∈ prev, m.message_id ≠ tempMessage.message_id)
    (htemp : ∀ m ∈ prev, createdAtLe m tempMessage = true)
    (hdata : ∀ m ∈ prev, createdAtLe m data = true) :
    sortedByCreatedAt (handleSend.append tempMessage prev) ∧
    handleSend.swap tempMessage.message_id data (handleSend.append tempMessage prev)
      = prev ++ [data] ∧
    sortedByCreatedAt
      (handleSend.swap tempMessage.message_id data (handleSend.append tempMessage prev)) := by
  have hswap : handleSend.swap tempMessage.message_id data
      (handleSend.append tempMessage prev) = prev ++ [data] := by
    simp only [handleSend.swap, handleSend.append, List.map_append, List.map_cons,
      List.map_nil, if_true]
    have h1 : prev.map
        (fun msg => if msg.message_id = tempMessage.message_id then data else msg) = prev := by
      conv_rhs => rw [← List.map_id prev]
      apply List.map_congr_left
      intro m hmem
      simp [hfresh m hmem]
    rw [h1]
  refine ⟨?_, hswap, ?_⟩
  · unfold sortedByCreatedAt handleSend.append
    rw [List.pairwise_append]
    refine ⟨hsorted, List.pairwise_singleton _ _, ?_⟩
    intro a ha b hb
    rw [List.mem_singleton] at hb
    rw [hb]
    exact htemp a ha
  · rw [hswap]
    unfold sortedByCreatedAt
    rw [List.pairwise_append]
    refine ⟨hsorted, List.pairwise_singleton _ _, ?_⟩
    intro a ha b hb
    rw [List.mem_singleton] at hb
    rw [hb]
    exact hdata a ha

/-- A concrete instance of the amended C19: the client clock reads second 7. -/
theorem order_kept_when_stamps_agree_witness :
    sortedByCreatedAt [sampleStamped] ∧
    sortedByCreatedAt (handleSend.append
      ⟨"1700000000000", "A", "hello", "2024-01-01T00:00:07.000Z", "sent"⟩ [sampleStamped]) :=
  ⟨by decide,
   (order_kept_when_stamps_agree [sampleStamped]
      ⟨"1700000000000", "A", "hello", "2024-01-01T00:00:07.000Z", "sent"⟩
      ⟨"srv-9", "A", "hello", "2024-01-01T00:00:06.500Z", "sent"⟩
      (by decide) (by decide) (by decide) (by decide)).1⟩

theorem digitChar_val (k : Nat) (hk : k < 10) : (Nat.digitChar k).toNat - 48 = k := by
  interval_cases k <;> rfl

theorem valFrom_toDigitsCore (fuel : Nat) : ∀ (n : Nat) (ds : List Char), n < fuel →
    valFrom 0 (Nat.toDigitsCore 10 fuel n ds) = valFrom n ds := by
  induction fuel with
  | zero => intro n ds h; omega
  | succ fuel ih =>
    intro n ds h
    simp only [Nat.toDigitsCore]
    split
    · simp only [valFrom, List.foldl_cons]
      rw [digitChar_val _ (Nat.mod_lt _ (by norm_num))]
      congr 1
      omega
    · have hlt : n / 10 < fuel := by omega
      rw [ih (n / 10) _ hlt]
      simp only [valFrom, List.foldl_cons]
      rw [digitChar_val _ (Nat.mod_lt _ (by norm_num))]
      congr 1
      omega

theorem valFrom_toString (n : Nat) : valFrom 0 (toString n).data = n := by
  show valFrom 0 (Nat.toDigits 10 n) = n
  unfold Nat.toDigits
  rw [valFrom_toDigitsCore _ _ _ (Nat.lt_succ_self n)]
  rfl

theorem toString_ne_of_ne (a b : Nat) (h : a ≠ b) : toString a ≠ toString b := by
  intro heq
  apply h
  rw [← valFrom_toString a, ← valFrom_toString b, heq]

/-- Against the claim C20 as stated: two submits are accepted while `Date.now()` reads
the same value; their provisional entries carry the same `message_id`, and the
success reconciliation of the first send swaps both of them. -/
theorem same_reading_same_placeholder :
    (run sampleTyped [.submit 1700000000000 "t1", .input "again",
        .submit 1700000000000 "t1"]).pendingSends.map (fun call => call.tempId)
      = ["1700000000000", "1700000000000"] ∧
    (run sampleTyped [.submit 1700000000000 "t1", .input "again",
        .submit 1700000000000 "t1"]).view.messages
      = [sampleOld, ⟨"1700000000000", "A", "hello", "t1", "sent"⟩,
         ⟨"1700000000000", "A", "again", "t1", "sent"⟩] ∧
    (run sampleTyped sampleSameReading).view.messages
      = [sampleOld, sampleReply, sampleReply] := by
  decide

/-- The claim C20 as amended: for any two submits accepted by `handleSend` whose readings
of `Date.now()` differ, the `message_id` values of their provisional entries are
different, and on a thread with no earlier entry under the first placeholder id
the success reconciliation of the first send swaps exactly that one entry. -/
theorem distinct_readings_distinct_ids (c : Component) (now1 now2 : Nat)
    (iso1 iso2 text : String) (u : User) (data : Message)
    (hm : c.mounted = true) (hu : c.user = some u)
    (hacc : handleSend.accepted c.conversationId c.user c.view = true)
    (htext : jsTrim text ≠ "")
    (hne : now1 ≠ now2)
    (hfresh : ∀ m ∈ c.view.messages, m.message_id ≠ toString now1) :
    ∃ t1 t2,
      (run c [.submit now1 iso1, .input text, .submit now2 iso2]).view.messages
        = c.view.messages ++ [t1, t2] ∧
      t1.message_id = toString now1 ∧
      t2.message_id = toString now2 ∧
      t1.message_id ≠ t2.message_id ∧
      (run c [.submit now1 iso1, .input text, .submit now2 iso2,
          .sendSettle c.pendingSends.length (some data)]).view.messages
        = c.view.messages ++ [data, t2] := by
  have hids : toString now1 ≠ toString now2 := toString_ne_of_ne now1 now2 hne
  have hacc0 : truthyId c.conversationId = true := by
    simp only [handleSend.accepted, Bool.and_eq_true] at hacc
    exact hacc.1.2
  have e1 := submit_accepted_eq c now1 iso1 u hm hu hacc
  have hrun3 : run c [.submit now1 iso1, .input text, .submit now2 iso2]
      = step (step (step c (.submit now1 iso1)) (.input text)) (.submit now2 iso2) := rfl
  have hrun4 : run c [.submit now1 iso1, .input text, .submit now2 iso2,
        .sendSettle c.pendingSends.length (some data)]
      = step (step (step (step c (.submit now1 iso1)) (.input text)) (.submit now2 iso2))
          (.sendSettle c.pendingSends.length (some data)) := rfl
  have e2 : step (step c (.submit now1 iso1)) (.input text)
      = { step c (.submit now1 iso1) with
          view := { (step c (.submit now1 iso1)).view with newMessage := text } } := by
    rw [e1]
    simp [step, hm]
  have hm2 : (step (step c (.submit now1 iso1)) (.input text)).mounted = true := by
    rw [e2, e1]
    exact hm
  have hu2 : (step (step c (.submit now1 iso1)) (.input text)).user = some u := by
    rw [e2, e1]
    exact hu
  have hacc2 : handleSend.accepted
      (step (step c (.submit now1 iso1)) (.input text)).conversationId
      (step (step c (.submit now1 iso1)) (.input text)).user
      (step (step c (.submit now1 iso1)) (.input text)).view = true := by
    rw [e2, e1]
    simp [handleSend.accepted, htext, hacc0, hu]
  have e3 := submit_accepted_eq _ now2 iso2 u hm2 hu2 hacc2
  have hmsg : (step (step (step c (.submit now1 iso1)) (.input text))
      (.submit now2 iso2)).view.messages
      = c.view.messages ++ [handleSend.tempMessage now1 iso1 u c.view,
          handleSend.tempMessage now2 iso2 u
            (step (step c (.submit now1 iso1)) (.input text)).view] := by
    rw [e3]
    simp only [handleSend.optimistic, handleSend.append]
    rw [e2, e1]
    simp [handleSend.optimistic, handleSend.append]
  refine ⟨handleSend.tempMessage now1 iso1 u c.view,
    handleSend.tempMessage now2 iso2 u (step (step c (.submit now1 iso1)) (.input text)).view,
    ?_, rfl, rfl, hids, ?_⟩
  · rw [hrun3, hmsg]
  · rw [hrun4]
    have hk : (step (step (step c (.submit now1 iso1)) (.input text))
        (.submit now2 iso2)).pendingSends[c.pendingSends.length]?
        = some ⟨toString now1, handleSend.payload c.conversation u c.view⟩ := by
      have hp : (step (step (step c (.submit now1 iso1)) (.input text))
          (.submit now2 iso2)).pendingSends
          = c.pendingSends ++
            [⟨toString now1, handleSend.payload c.conversation u c.view⟩,
             ⟨toString now2, handleSend.payload c.conversation u
               (step (step c (.submit now1 iso1)) (.input text)).view⟩] := by
        rw [e3]
        simp only []
        rw [e2, e1]
        simp
      rw [hp, List.getElem?_append_right (Nat.le_refl _)]
      simp
    have hm3 : (step (step (step c (.submit now1 iso1)) (.input text))
        (.submit now2 iso2)).mounted = true := by
      rw [e3]
      exact hm2
    rw [sendSettle_messages _ _ _ (some data) hm3 hk, hmsg]
    simp only [handleSend.swap, List.map_append, List.map_cons, List.map_nil]
    have h1 : c.view.messages.map
        (fun msg => if msg.message_id = toString now1 then data else msg)
        = c.view.messages := by
      conv_rhs => rw [← List.map_id c.view.messages]
      apply List.map_congr_left
      intro m hmem
      simp [hfresh m hmem]
    rw [h1]
    have h2 : (handleSend.tempMessage now2 iso2 u
        (step (step c (.submit now1 iso1)) (.input text)).view).message_id
        ≠ toString now1 := fun h => hids h.symm
    simp [handleSend.tempMessage] at h2 ⊢
    exact fun h => absurd h.symm hids

/-- A concrete instance of the amended C20: the second submit comes one millisecond
after the first. -/
theorem distinct_readings_distinct_ids_witness :
    ∃ t1 t2,
      (run sampleTyped [.submit 1700000000000 "t1", .input "again",
          .submit 1700000000001 "t1"]).view.messages
        = sampleTyped.view.messages ++ [t1, t2] ∧
      t1.message_id = toString 1700000000000 ∧
      t2.message_id = toString 1700000000001 ∧
      t1.message_id ≠ t2.message_id ∧
      (run sampleTyped [.submit 1700000000000 "t1", .input "again",
          .submit 1700000000001 "t1",
          .sendSettle sampleTyped.pendingSends.length (some sampleReply)]).view.messages
        = sampleTyped.view.messages ++ [sampleReply, t2] :=
  distinct_readings_distinct_ids sampleTyped 1700000000000 1700000000001 "t1" "t1" "again"
    sampleUser sampleReply (by decide) (by decide) (by decide) (by decide) (by decide)
    (by decide)

/-! ## Theorems: rejected submits, the input text and the error flag -/

theorem jsTrim_of_whitespace (s : String)
    (h : ∀ ch ∈ s.data, isJsWhitespace ch = true) : jsTrim s = "" := by
  have h1 : s.data.dropWhile isJsWhitespace = [] := by
    rw [List.dropWhile_eq_nil_iff]
    exact h
  simp [jsTrim, h1]

/-- The claim C21: `handleSend` does nothing when the input is empty or consists only of
white space, and likewise when `conversationId` or `user` is missing: the whole
component state is unchanged, in particular the thread, the input text and the
error flag, and no POST is made. -/
theorem rejected_submit_does_nothing (c : Component) (now : Nat) (iso : String)
    (hrej : (∀ ch ∈ c.view.newMessage.data, isJsWhitespace ch = true) ∨
      truthyId c.conversationId = false ∨ c.user = none) :
    step c (.submit now iso) = c ∧
    (step c (.submit now iso)).view.messages = c.view.messages ∧
    (step c (.submit now iso)).view.newMessage = c.view.newMessage ∧
    (step c (.submit now iso)).view.error = c.view.error ∧
    (step c (.submit now iso)).sendLog = c.sendLog ∧
    (step c (.submit now iso)).pendingSends = c.pendingSends := by
  have hacc : handleSend.accepted c.conversationId c.user c.view = false := by
    rcases hrej with h | h | h
    · simp [handleSend.accepted, jsTrim_of_whitespace _ h]
    · simp [handleSend.accepted, h]
    · simp [handleSend.accepted, h]
  have h : step c (.submit now iso) = c := by
    simp only [step]
    split
    · rfl
    · unfold handleSend
      split
      · rfl
      · simp [hacc]
  rw [h]
  exact ⟨rfl, rfl, rfl, rfl, rfl, rfl⟩

/-- A concrete instance of C21: the input holds blanks and a tab. -/
theorem rejected_submit_does_nothing_witness :
    sampleBlank.view.newMessage = "  \t " ∧
    step sampleBlank (.submit 1700000000000 "t1") = sampleBlank :=
  ⟨by decide,
   (rejected_submit_does_nothing sampleBlank 1700000000000 "t1" (Or.inl (by decide))).1⟩

theorem step_poll_newMessage (c : Component) (e : Event) (hp : e.isPoll = true) :
    (step c e).view.newMessage = c.view.newMessage := by
  cases e with
  | tick h =>
    simp only [step]
    split
    · rename_i iv _
      rw [(fetchMessages_frame iv.conversationId iv.user (some h) c).1]
    · rfl
  | fetchSettle k result =>
    simp only [step]
    split
    · rfl
    · split
      · rfl
      · cases result <;> rfl
  | render _ _ _ => simp [Event.isPoll] at hp
  | unmount => simp [Event.isPoll] at hp
  | input _ => simp [Event.isPoll] at hp
  | submit _ _ => simp [Event.isPoll] at hp
  | sendSettle _ _ => simp [Event.isPoll] at hp

theorem run_polls_newMessage (es : List Event) :
    ∀ (c : Component), (∀ e ∈ es, e.isPoll = true) →
    (run c es).view.newMessage = c.view.newMessage := by
  induction es with
  | nil => intro c _; rfl
  | cons e es ih =>
    intro c hp
    rw [run_cons, ih (step c e) (fun e1 he1 => hp e1 (by simp [he1])),
      step_poll_newMessage c e (hp e (by simp))]

theorem sendSettle_failure_view (c : Component) (k : Nat) (call : SendCall)
    (hm : c.mounted = true) (hk : c.pendingSends[k]? = some call) :
    (step c (.sendSettle k none)).view = handleSend.onFailure call.tempId c.view := by
  simp [step, hk, hm]

/-- The claim C22: an accepted submit on a mounted component sets the input text to the
empty string before the POST settles; it stays empty under any poll traffic, and
when the POST is rejected the input text is still empty and the error flag reads
"Failed to send message.": the composed text is not restored. -/
theorem input_cleared_and_not_restored (c : Component) (now : Nat) (iso : String)
    (es : List Event)
    (hm : c.mounted = true)
    (hacc : handleSend.accepted c.conversationId c.user c.view = true)
    (hpoll : ∀ e ∈ es, e.isPoll = true) :
    (step c (.submit now iso)).view.newMessage = "" ∧
    (run c (.submit now iso :: es)).view.newMessage = "" ∧
    (run c ((.submit now iso :: es) ++
        [.sendSettle c.pendingSends.length none])).view.newMessage = "" ∧
    (run c ((.submit now iso :: es) ++
        [.sendSettle c.pendingSends.length none])).view.error
      = some "Failed to send message." := by
  obtain ⟨u, hu, _, hpend, hmount⟩ := submit_accepted c now iso hm hacc
  have h0 : (step c (.submit now iso)).view.newMessage = "" := by
    rw [submit_accepted_eq c now iso u hm hu hacc]
    rfl
  have h1 : (run c (.submit now iso :: es)).view.newMessage = "" := by
    rw [run_cons, run_polls_newMessage es _ hpoll, h0]
  obtain ⟨a1, a2, _⟩ := run_polls es (step c (.submit now iso)) hpoll
  have hk : (run (step c (.submit now iso)) es).pendingSends[c.pendingSends.length]?
      = some ⟨toString now, handleSend.payload c.conversation u c.view⟩ := by
    rw [a1, hpend]
    simp
  have hview : (run c ((.submit now iso :: es) ++
      [.sendSettle c.pendingSends.length none])).view
      = handleSend.onFailure (toString now) (run c (.submit now iso :: es)).view := by
    rw [run_append]
    exact sendSettle_failure_view (run (step c (.submit now iso)) es) c.pendingSends.length
      ⟨toString now, handleSend.payload c.conversation u c.view⟩ (a2.trans hmount) hk
  refine ⟨h0, h1, ?_, ?_⟩
  · rw [hview]
    exact h1
  · rw [hview]
    rfl

/-- A concrete instance of C22: " hello " is submitted, a poll response arrives and
the POST is rejected. -/
theorem input_cleared_and_not_restored_witness :
    sampleTyped.view.newMessage = " hello " ∧
    (run sampleTyped ((.submit 1700000000000 "t1" ::
        [.tick 0, .fetchSettle 0 (some (some [sampleOld]))]) ++
        [.sendSettle sampleTyped.pendingSends.length none])).view.newMessage = "" :=
  ⟨by decide,
   (input_cleared_and_not_restored sampleTyped 1700000000000 "t1"
      [.tick 0, .fetchSettle 0 (some (some [sampleOld]))]
      (by decide) (by decide) (by decide)).2.2.1⟩

theorem swap_without_placeholder (tempId : String) (data : Message) (thread : List Message)
    (hno : ∀ m ∈ thread, m.message_id ≠ tempId) :
    handleSend.swap tempId data thread = thread := by
  unfold handleSend.swap
  conv_rhs => rw [← List.map_id thread]
  apply List.map_congr_left
  intro m hmem
  simp [hno m hmem]

theorem remove_without_placeholder (tempId : String) (thread : List Message)
    (hno : ∀ m ∈ thread, m.message_id ≠ tempId) :
    handleSend.remove tempId thread = thread := by
  unfold handleSend.remove
  rw [List.filter_eq_self]
  intro m hmem
  simpa using hno m hmem

/-- The claim C27: when a send settles on a mounted component whose thread holds no
entry with the placeholder id, both settle branches leave the thread unchanged:
on success the server-returned message is not inserted, on failure nothing is
removed. -/
theorem settle_without_placeholder (c : Component) (k : Nat) (call : SendCall)
    (data : Message)
    (hm : c.mounted = true) (hk : c.pendingSends[k]? = some call)
    (hno : ∀ m ∈ c.view.messages, m.message_id ≠ call.tempId) :
    (step c (.sendSettle k (some data))).view.messages = c.view.messages ∧
    (step c (.sendSettle k none)).view.messages = c.view.messages := by
  constructor
  · rw [sendSettle_messages c k call (some data) hm hk]
    exact swap_without_placeholder call.tempId data c.view.messages hno
  · rw [sendSettle_messages c k call none hm hk]
    exact remove_without_placeholder call.tempId c.view.messages hno

/-- A concrete instance of C27: a poll response replaced the thread while the send of
"hello" was in flight. -/
theorem settle_without_placeholder_witness :
    sampleOverwritten.view.messages = [sampleOld] ∧
    (step sampleOverwritten (.sendSettle 0 (some sampleReply))).view.messages = [sampleOld] ∧
    (step sampleOverwritten (.sendSettle 0 none)).view.messages = [sampleOld] :=
  ⟨by decide,
   (settle_without_placeholder sampleOverwritten 0
      ⟨"1700000000000", ⟨"B", "hello"⟩⟩ sampleReply (by decide) (by decide) (by decide)).1,
   (settle_without_placeholder sampleOverwritten 0
      ⟨"1700000000000", ⟨"B", "hello"⟩⟩ sampleReply (by decide) (by decide) (by decide)).2⟩

/-- The claim C28: the success branch of `fetchMessages` sets the error flag to null
whatever the state.  On a mounted component, after an accepted submit whose POST
is rejected the error flag reads "Failed to send message."; when an unresolved
GET then resolves, the error flag is null and the input text is still empty. -/
theorem successful_fetch_clears_error (s : ChatState) (c : Component) (now : Nat)
    (iso : String) (k : Nat) (call : FetchCall) (data : Option (List Message))
    (hm : c.mounted = true)
    (hacc : handleSend.accepted c.conversationId c.user c.view = true)
    (hk : c.pendingFetches[k]? = some call) :
    (fetchMessages.onSuccess data s).error = none ∧
    (run c [.submit now iso, .sendSettle c.pendingSends.length none]).view.error
      = some "Failed to send message." ∧
    (run c [.submit now iso, .sendSettle c.pendingSends.length none,
        .fetchSettle k (some data)]).view.error = none ∧
    (run c [.submit now iso, .sendSettle c.pendingSends.length none,
        .fetchSettle k (some data)]).view.newMessage = "" := by
  obtain ⟨u, hu, _, _, _⟩ := submit_accepted c now iso hm hacc
  have e1 := submit_accepted_eq c now iso u hm hu hacc
  have e2 : run c [.submit now iso, .sendSettle c.pendingSends.length none]
      = { step c (.submit now iso) with
          pendingSends := (step c (.submit now iso)).pendingSends.eraseIdx
            c.pendingSends.length
          view := handleSend.onFailure (toString now) (step c (.submit now iso)).view } := by
    show step (step c (.submit now iso)) (.sendSettle c.pendingSends.length none) = _
    rw [e1]
    simp [step, hm]
  have e3 : run c [.submit now iso, .sendSettle c.pendingSends.length none,
        .fetchSettle k (some data)]
      = step (run c [.submit now iso, .sendSettle c.pendingSends.length none])
          (.fetchSettle k (some data)) := rfl
  have hk2 : (run c [.submit now iso, .sendSettle c.pendingSends.length none]).pendingFetches[k]?
      = some call := by
    rw [e2, e1]
    exact hk
  have hm2 : (run c [.submit now iso, .sendSettle c.pendingSends.length none]).mounted
      = true := by
    rw [e2, e1]
    exact hm
  have e4 : (run c [.submit now iso, .sendSettle c.pendingSends.length none,
        .fetchSettle k (some data)]).view
      = fetchMessages.onSuccess data
          (run c [.submit now iso, .sendSettle c.pendingSends.length none]).view := by
    rw [e3]
    simp [step, hk2, hm2]
  refine ⟨rfl, ?_, ?_, ?_⟩
  · rw [e2]
    rfl
  · rw [e4]
    rfl
  · rw [e4, e2, e1]
    rfl

/-- A concrete instance of C28: the send of "hello" fails and the next poll resolves. -/
theorem successful_fetch_clears_error_witness :
    (run (step sampleTyped (.tick 0))
        [.submit 1700000000000 "t1",
         .sendSettle (step sampleTyped (.tick 0)).pendingSends.length none]).view.error
      = some "Failed to send message." ∧
    (run (step sampleTyped (.tick 0))
        [.submit 1700000000000 "t1",
         .sendSettle (step sampleTyped (.tick 0)).pendingSends.length none,
         .fetchSettle 0 (some (some [sampleOld]))]).view.error = none :=
  ⟨(successful_fetch_clears_error ChatState.initial (step sampleTyped (.tick 0))
      1700000000000 "t1" 0 ⟨"X", some 0⟩ (some [sampleOld])
      (by decide) (by decide) (by decide)).2.1,
   (successful_fetch_clears_error ChatState.initial (step sampleTyped (.tick 0))
      1700000000000 "t1" 0 ⟨"X", some 0⟩ (some [sampleOld])
      (by decide) (by decide) (by decide)).2.2.1⟩

/-! ## Theorems: the conversation directory -/

/-- The claim C23: when a `getConversations` call resolves on a mounted
`ConversationList`, the conversations state becomes exactly the list carried by
the response: the same entries in the same order, hence the same length and the
same `unread_count` at every index; a response without a list gives the empty
list. -/
theorem directory_takes_server_list (c : ConversationList.Component)
    (list : List ConversationEntry)
    (hm : c.mounted = true) (hp : c.pendingFetches ≠ 0) :
    (ConversationList.step c (.fetchSettle (some (some list)))).view.conversations = list ∧
    (ConversationList.step c (.fetchSettle (some (some list)))).view.conversations.length
      = list.length ∧
    (ConversationList.step c (.fetchSettle (some (some list)))).view.conversations.map
        (fun conv => conv.unread_count)
      = list.map (fun conv => conv.unread_count) ∧
    (ConversationList.step c (.fetchSettle (some none))).view.conversations = [] := by
  have h1 : (ConversationList.step c (.fetchSettle (some (some list)))).view.conversations
      = list := by
    simp [ConversationList.step, hp, hm, fetchConversations.onSuccess]
  refine ⟨h1, by rw [h1], by rw [h1], ?_⟩
  simp [ConversationList.step, hp, hm, fetchConversations.onSuccess]

/-- A concrete instance of C23: the two conversations of `sampleDirectory`. -/
theorem directory_takes_server_list_witness :
    (ConversationList.step sampleList
        (.fetchSettle (some (some sampleDirectory)))).view.conversations = sampleDirectory ∧
    (ConversationList.step sampleList
        (.fetchSettle (some (some sampleDirectory)))).view.conversations.map
        (fun conv => conv.unread_count) = [3, 0] :=
  ⟨(directory_takes_server_list sampleList sampleDirectory (by decide) (by decide)).1,
   (directory_takes_server_list sampleList sampleDirectory (by decide) (by decide)).2.2.1⟩

/-- The claim C24: when a `getConversations` call is rejected on a mounted
`ConversationList`, the conversations state is exactly what it was and the error
flag is set to a non-null value, the text "Failed to load conversations". -/
theorem failed_directory_fetch_keeps_list (c : ConversationList.Component)
    (hm : c.mounted = true) (hp : c.pendingFetches ≠ 0) :
    (ConversationList.step c (.fetchSettle none)).view.conversations
      = c.view.conversations ∧
    (ConversationList.step c (.fetchSettle none)).view.error
      = some "Failed to load conversations" ∧
    (ConversationList.step c (.fetchSettle none)).view.error ≠ none := by
  have h : (ConversationList.step c (.fetchSettle none)).view
      = fetchConversations.onFailure c.view := by
    simp [ConversationList.step, hp, hm]
  rw [h]
  simp [fetchConversations.onFailure]

/-- A concrete instance of C24: the list holds the two conversations of
`sampleDirectory` when the call is rejected, and holds them afterwards. -/
theorem failed_directory_fetch_keeps_list_witness :
    sampleListHolding.view.conversations = sampleDirectory ∧
    sampleListHolding.view.conversations.length = 2 ∧
    (ConversationList.step sampleListHolding (.fetchSettle none)).view.conversations
      = sampleListHolding.view.conversations ∧
    (ConversationList.step sampleListHolding (.fetchSettle none)).view.error
      = some "Failed to load conversations" :=
  ⟨by decide, by decide,
   (failed_directory_fetch_keeps_list sampleListHolding (by decide) (by decide)).1,
   (failed_directory_fetch_keeps_list sampleListHolding (by decide) (by decide)).2.1⟩

theorem directory_step_fetchCalls (c : ConversationList.Component)
    (e : ConversationList.Event) :
    (ConversationList.step c e).fetchCalls = c.fetchCalls := by
  cases e with
  | render sel user =>
    simp only [ConversationList.step]
    split <;> rfl
  | unmount => rfl
  | tick h => rfl
  | fetchSettle result =>
    simp only [ConversationList.step]
    split
    · rfl
    · split
      · rfl
      · cases result <;> rfl

/-- Against the claim C25 as stated: over the life `sampleListLife` of a mounted
`ConversationList` (the fetch resolves, timers are asked to fire, a conversation
is selected) `getConversations` has been called once, not more. -/
theorem directory_fetches_once_only :
    (ConversationList.run sampleList sampleListLife).mounted = true ∧
    (ConversationList.run sampleList sampleListLife).fetchCalls = 1 ∧
    ¬ 1 < (ConversationList.run sampleList sampleListLife).fetchCalls := by
  decide

/-- The claim C25 as amended: `ConversationList` has no poll cycle.  Its effect runs
once, at the mount, and starts no timer, so whatever happens to the mounted view
(re-renders, ticks of the browser, settled calls) `getConversations` is called
exactly once over its lifetime. -/
theorem directory_fetch_count (selectedConversationId : Option String) (user : Option User)
    (es : List ConversationList.Event) :
    (ConversationList.run (ConversationList.mount selectedConversationId user) es).fetchCalls
      = 1 := by
  have h : ∀ (es : List ConversationList.Event) (c : ConversationList.Component),
      (ConversationList.run c es).fetchCalls = c.fetchCalls := by
    intro es
    induction es with
    | nil => intro c; rfl
    | cons e es ih =>
      intro c
      show (ConversationList.run (ConversationList.step c e) es).fetchCalls = c.fetchCalls
      rw [ih, directory_step_fetchCalls]
  rw [h]
  rfl

/-! ## Theorems: registration, the auth provider and the item filters -/

theorem lookaheadDotStar_of_dots (cls : Nat → Bool) (us : List Nat)
    (h : us.all matchesDot = true) : lookaheadDotStar cls us = us.any cls := by
  induction us with
  | nil => rfl
  | cons u us ih =>
    simp only [List.all_cons, Bool.and_eq_true] at h
    simp [lookaheadDotStar, h.1, ih h.2]

/-- How the test of line 96 relates to the stated rule: it accepts exactly the
passwords that meet the rule and hold no line terminator. -/
theorem strong_password_test_eq (password : String) :
    STRONG_PASSWORD_REGEX.test password
      = (statedPasswordRule password && (toUtf16 password).all matchesDot) := by
  unfold STRONG_PASSWORD_REGEX.test statedPasswordRule dotsToEnd
  cases h : (toUtf16 password).all matchesDot with
  | false => simp
  | true =>
    rw [lookaheadDotStar_of_dots _ _ h, lookaheadDotStar_of_dots _ _ h,
      lookaheadDotStar_of_dots _ _ h, lookaheadDotStar_of_dots _ _ h]
    generalize (toUtf16 password).any isLowerUnit = a
    generalize (toUtf16 password).any isUpperUnit = b
    generalize (toUtf16 password).any isDigitUnit = d
    generalize (toUtf16 password).any isOtherUnit = o
    generalize decide (8 ≤ (toUtf16 password).length) = n
    cases a <;> cases b <;> cases d <;> cases o <;> cases n <;> rfl

/-- The claim C26 at the password of `sampleRegistration`: it has eight characters, a
lowercase letter, an uppercase letter, a digit and a character outside these
(the line separator), so the stated rule holds; the test of line 96 fails on it,
`handleRegister` sets the `PASSWORD_TITLE` message and posts nothing.  An
ordinary password such as "Abcdef1!" passes and is posted. -/
theorem register_rejects_line_separator :
    statedPasswordRule sampleRegistration.password = true ∧
    STRONG_PASSWORD_REGEX.test sampleRegistration.password = false ∧
    (handleRegister sampleRegistration).2 = none ∧
    (handleRegister sampleRegistration).1.message = "❌ " ++ PASSWORD_TITLE ∧
    (handleRegister { sampleRegistration with password := "Abcdef1!" }).2
      = some ⟨"Ann", "u1", "Abcdef1!", "ann@example.org"⟩ := by
  decide

theorem auth_apply_invariant {α : Type} (json : JsonLibrary α) (s : AuthProvider.State α)
    (call : AuthProvider.Call α) (h : s.isAuthenticated = s.user.isSome) :
    (AuthProvider.apply json s call).isAuthenticated
      = (AuthProvider.apply json s call).user.isSome := by
  cases call with
  | login userData token =>
    cases userData with
    | none => exact h
    | some d =>
      simp only [AuthProvider.apply, AuthProvider.login, AuthProvider.updateUser]
      split
      · rfl
      · exact h
  | updateUser userData =>
    cases userData with
    | none => exact h
    | some d =>
      simp only [AuthProvider.apply, AuthProvider.updateUser]
      split
      · rfl
      · exact h
  | logout => rfl

theorem auth_run_invariant {α : Type} (json : JsonLibrary α)
    (calls : List (AuthProvider.Call α)) :
    ∀ (s : AuthProvider.State α), s.isAuthenticated = s.user.isSome →
    (AuthProvider.runCalls json s calls).isAuthenticated
      = (AuthProvider.runCalls json s calls).user.isSome := by
  induction calls with
  | nil => intro s h; exact h
  | cons call calls ih =>
    intro s h
    exact ih (AuthProvider.apply json s call) (auth_apply_invariant json s call h)

/-- The mount effect keeps `isAuthenticated` in step with `user` unless the stored
text of the user parses to `null`. -/
theorem loadUser_consistent {α : Type} (json : JsonLibrary α) (s : AuthProvider.State α)
    (h : s.isAuthenticated = s.user.isSome)
    (hnull : ∀ text, s.storageUser = some text → json.parse text ≠ some none) :
    (AuthProvider.loadUser json s).isAuthenticated
      = (AuthProvider.loadUser json s).user.isSome := by
  unfold AuthProvider.loadUser
  split
  · rename_i token storedUser htok husr
    split
    · cases hp : json.parse storedUser with
      | none => exact h
      | some userData =>
        cases userData with
        | none => exact absurd hp (hnull storedUser husr)
        | some d => rfl
    · exact h
  · exact h

/-- What holds of the three calls of `AuthProvider`: from the state of the first
render, and from the mounted provider when the stored text of the user does not
parse to `null`, every sequence of `login`, `updateUser` and `logout` calls leaves
`isAuthenticated` true exactly when `user` is non-null; `updateUser` and `login`
with a null user leave `user` and `isAuthenticated` as they are; and `logout`
ends with `user` null, `isAuthenticated` false and neither key in the storage. -/
theorem auth_state_consistent {α : Type} (json : JsonLibrary α)
    (storageToken storageUser : Option String) (calls : List (AuthProvider.Call α))
    (s : AuthProvider.State α) (token : String) :
    ((AuthProvider.runCalls json (AuthProvider.State.initial storageToken storageUser)
        calls).isAuthenticated = true ↔
      (AuthProvider.runCalls json (AuthProvider.State.initial storageToken storageUser)
        calls).user ≠ none) ∧
    ((∀ text, storageUser = some text → json.parse text ≠ some none) →
      ((AuthProvider.runCalls json (AuthProvider.mount json storageToken storageUser)
          calls).isAuthenticated = true ↔
        (AuthProvider.runCalls json (AuthProvider.mount json storageToken storageUser)
          calls).user ≠ none)) ∧
    (AuthProvider.updateUser json none s).user = s.user ∧
    (AuthProvider.updateUser json none s).isAuthenticated = s.isAuthenticated ∧
    (AuthProvider.login json none token s).user = s.user ∧
    (AuthProvider.login json none token s).isAuthenticated = s.isAuthenticated ∧
    (AuthProvider.logout s).user = none ∧
    (AuthProvider.logout s).isAuthenticated = false ∧
    (AuthProvider.logout s).storageToken = none ∧
    (AuthProvider.logout s).storageUser = none := by
  have hiff : ∀ (t : AuthProvider.State α), t.isAuthenticated = t.user.isSome →
      (t.isAuthenticated = true ↔ t.user ≠ none) := by
    intro t ht
    rw [ht]
    cases t.user <;> simp
  refine ⟨?_, ?_, rfl, rfl, rfl, rfl, rfl, rfl, rfl, rfl⟩
  · exact hiff _ (auth_run_invariant json calls _ rfl)
  · intro hnull
    exact hiff _ (auth_run_invariant json calls _
      (loadUser_consistent json (AuthProvider.State.initial storageToken storageUser) rfl
        hnull))

theorem loadUser_null {α : Type} (json : JsonLibrary α) (token text : String)
    (htoken : token ≠ "") (htext : text ≠ "") (hnull : json.parse text = some none) :
    (AuthProvider.mount json (some token) (some text)).user = none ∧
    (AuthProvider.mount json (some token) (some text)).isAuthenticated = true := by
  simp [AuthProvider.mount, AuthProvider.loadUser, AuthProvider.State.initial, htoken, htext,
    hnull]

/-- The claim C29 at a storage that holds a token and the text `null` under 'user':
the mount effect sets `isAuthenticated` to true while `user` is null, and this
stays so under calls with a null user; `updateUser`, given the same null value,
sets neither.  Over a stored user record the mounted provider holds that user and
is authenticated, and `logout` clears both cells and both keys. -/
theorem stored_null_user_authenticates :
    (AuthProvider.mount sampleJson (some "t") (some "null")).user = none ∧
    (AuthProvider.mount sampleJson (some "t") (some "null")).isAuthenticated = true ∧
    (AuthProvider.runCalls sampleJson (AuthProvider.mount sampleJson (some "t") (some "null"))
        [.updateUser none, .login none "t2"]).user = none ∧
    (AuthProvider.runCalls sampleJson (AuthProvider.mount sampleJson (some "t") (some "null"))
        [.updateUser none, .login none "t2"]).isAuthenticated = true ∧
    (AuthProvider.updateUser sampleJson none
        (AuthProvider.State.initial (some "t") (some "null"))).isAuthenticated = false ∧
    (AuthProvider.mount sampleJson (some "t") (some (sampleJson.stringify sampleUser))).user
      = some sampleUser ∧
    (AuthProvider.mount sampleJson (some "t")
        (some (sampleJson.stringify sampleUser))).isAuthenticated = true ∧
    AuthProvider.logout (AuthProvider.mount sampleJson (some "t") (some "null"))
      = { user := none, isAuthenticated := false, isLoading := false
          storageToken := none, storageUser := none } := by
  decide

/-- The claim C30: for every item list and every setting of the filters, `applyFilters`
yields exactly the items that pass all active filter predicates, in their
original order, so an order-preserving sublist of the items; when `showClaimed`
is false the result holds no claimed item, and with every filter at its default
the result is the list of unclaimed items. -/
theorem applyFilters_spec (js : JsLibrary) (f : ItemFilters) (items : List ListedItem) :
    applyFilters js f items = items.filter (passesActiveFilters js f) ∧
    (applyFilters js f items).Sublist items ∧
    (f.showClaimed = false → ∀ item ∈ applyFilters js f items, item.is_claimed = false) ∧
    applyFilters js ItemFilters.defaults items = items.filter (fun item => !item.is_claimed) := by
  have hmain : ∀ (g : ItemFilters),
      applyFilters js g items = items.filter (passesActiveFilters js g) := by
    intro g
    have hp : passesActiveFilters js g = fun item => passesActiveFilters js g item := rfl
    rw [hp]
    cases h1 : (g.searchQuery == "") <;> cases h2 : (g.itemType == "all") <;>
      cases hs : g.showClaimed <;> cases h4 : (g.itemStatus == "all") <;>
      cases h5 : (g.dateFrom == "") <;> cases h6 : (g.dateTo == "") <;>
      simp only [applyFilters, passesActiveFilters, bne, h1, h2, hs, h4, h5, h6,
        List.filter_filter, Bool.not_false, Bool.not_true, Bool.false_or, Bool.true_or,
        Bool.true_and, Bool.and_true, if_true, if_false, Bool.false_eq_true,
        List.filter_true] <;>
      simp [Bool.and_comm, Bool.and_left_comm, Bool.and_assoc]
  refine ⟨hmain f, ?_, ?_, ?_⟩
  · rw [hmain f]
    exact List.filter_sublist items
  · intro hshow item hitem
    rw [hmain f, List.mem_filter] at hitem
    have hp := hitem.2
    simp only [passesActiveFilters, hshow, Bool.and_eq_true, Bool.or_eq_true,
      Bool.false_or, Bool.false_eq_true, false_or, Bool.not_eq_true'] at hp
    exact hp.1.1.1.2
  · rw [hmain]
    apply List.filter_congr
    intro item _
    simp [passesActiveFilters, ItemFilters.defaults]

/-- A concrete instance of C30: with the defaults the claimed book is left out; with
claimed items shown and the status "found" the key is left out. -/
theorem applyFilters_spec_witness :
    applyFilters sampleJs ItemFilters.defaults sampleItems
      = sampleItems.filter (fun item => !item.is_claimed) ∧
    applyFilters sampleJs ItemFilters.defaults sampleItems
      = [⟨some "Lost house key", some "Keys", false, "10"⟩,
         ⟨some "Found phone", some "Electronics", false, "15"⟩] ∧
    applyFilters sampleJs { ItemFilters.defaults with showClaimed := true, itemStatus := "found" }
        sampleItems
      = [⟨some "Found novel", some "Books", true, "12"⟩,
         ⟨some "Found phone", some "Electronics", false, "15"⟩] ∧
    applyFilters sampleJs { ItemFilters.defaults with dateFrom := "11", dateTo := "12" }
        sampleItems = [] :=
  ⟨(applyFilters_spec sampleJs ItemFilters.defaults sampleItems).2.2.2,
   by decide, by decide, by decide⟩

end LostAndFound
